import Mathlib

/-!
Code-Virtualizer: the bytecode VM of `VM.h` / `VM.cpp`.

A shallow embedding of the stack machine.

* A program word and a stack value is a C++ `int`: an `Int` kept in the 32-bit
  two's-complement range by `wrap32` wherever an operation can leave it.
* `std::vector<int> stack` is a `List Int` whose head is `stack.back()`.
* `std::map<int, std::function<void()>> external_calls` is an association list
  from identifier to a callback label; invoking a callback appends its label
  to `fired`.
* `std::cerr` lines and message boxes are appended to `output`.
* Undefined behaviour of the C++ (an index outside a vector, `back()` of an
  empty vector, a shift count outside `0..31`, an iterator range outside the
  vector) is the result `none`.
* The reading of `steady_clock` relative to `start_time` is an input, in
  nanoseconds.
-/

namespace CodeVirtualizer

/-! ## Machine integers -/

/-- The value of a mathematical integer as a 32-bit two's-complement `int`. -/
def wrap32 (x : Int) : Int := (x + 2147483648) % 4294967296 - 2147483648

/-- Membership in the range of a 32-bit `int`. -/
def is_int32 (x : Int) : Prop := -2147483648 ≤ x ∧ x < 2147483648

instance (x : Int) : Decidable (is_int32 x) := by
  unfold is_int32; infer_instance

/-! ## `enum VMOpcodes` -/

def VM_PUSH : Int := 0
def VM_POP : Int := 1
def VM_ADD : Int := 2
def VM_RET : Int := 3
def VM_CALL_EXTERNAL : Int := 4
def VM_CMP : Int := 5
def VM_JUMP_IF_EQUAL : Int := 6
def VM_SUB : Int := 7
def VM_PUSH_JUNK : Int := 8
def VM_XOR : Int := 9
def VM_MUTATE : Int := 10
def VM_TIMING_CHECK : Int := 11
def VM_CHECKSUM_CHECK : Int := 12
def VM_CHECKSUM_PUSH : Int := 13
def VM_ROTL : Int := 14

/-! ## State -/

/-- What the VM writes to `std::cerr` or shows in a message box. -/
inductive Msg where
  | integrity_halt
  | unknown_opcode
  | timing_anomaly
  | checksum_mismatch
  deriving DecidableEq, Repr

/-- The data members of `class VM` (the handler table is `opcode_handlers`
below; `start_time` is replaced by the elapsed-time input). -/
structure VM where
  bytecode : List Int
  stack : List Int
  instruction_pointer : Int
  external_calls : List (Int × Nat)
  integrity_failed : Bool
  is_running : Bool
  fired : List Nat
  output : List Msg
  deriving DecidableEq, Repr

/-- A freshly constructed VM: empty vectors and the default member values. -/
def VM.fresh : VM :=
  { bytecode := [], stack := [], instruction_pointer := 0, external_calls := [],
    integrity_failed := false, is_running := false, fired := [], output := [] }

/-- The expression `bytecode[i]` for an `int` index: defined only inside the vector. -/
def read (code : List Int) (i : Int) : Option Int :=
  if i < 0 then none else code[i.toNat]?

/-- The fold `std::accumulate(begin + start, begin + start + len, 0, std::bit_xor<int>())`. -/
def accumulate_bit_xor (code : List Int) (start len : Int) : Option Int :=
  if 0 ≤ start ∧ 0 ≤ len ∧ start + len ≤ code.length then
    some (((code.drop start.toNat).take len.toNat).foldl (fun acc x => Int.xor acc x) 0)
  else none

/-! ## Public operations other than `run` -/

def load_bytecode (code : List Int) (s : VM) : VM :=
  { s with bytecode := code }

def register_external_call (id : Int) (func : Nat) (s : VM) : VM :=
  { s with external_calls := (id, func) :: s.external_calls.filter (fun p => p.1 ≠ id) }

def get_result (s : VM) : Int :=
  match s.stack with
  | [] => 0
  | v :: _ => v

/-! ## Opcode handlers -/

def handle_push (s : VM) : Option VM :=
  match read s.bytecode s.instruction_pointer with
  | none => none
  | some v =>
    some { s with instruction_pointer := s.instruction_pointer + 1, stack := v :: s.stack }

def handle_pop (s : VM) : Option VM :=
  match s.stack with
  | [] => some s
  | _ :: rest => some { s with stack := rest }

def handle_add (s : VM) : Option VM :=
  match s.bytecode with
  | [] => none
  | w0 :: _ =>
    let s1 : VM :=
      if w0 ≠ VM_PUSH_JUNK ∧ w0 ≠ VM_PUSH then { s with integrity_failed := true } else s
    match s1.stack with
    | b :: a :: rest => some { s1 with stack := wrap32 (a + b) :: rest }
    | _ => none

def handle_ret (s : VM) : Option VM :=
  some { s with is_running := false }

def handle_call_external (s : VM) : Option VM :=
  match read s.bytecode s.instruction_pointer with
  | none => none
  | some id =>
    let s1 : VM := { s with instruction_pointer := s.instruction_pointer + 1 }
    match s1.external_calls.lookup id with
    | some func => some { s1 with fired := s1.fired ++ [func] }
    | none => some s1

def handle_cmp (s : VM) : Option VM :=
  match s.stack with
  | b :: a :: rest => some { s with stack := (if a = b then 1 else 0) :: rest }
  | _ => none

def handle_jump_if_equal (s : VM) : Option VM :=
  match s.stack with
  | [] => none
  | cond :: rest =>
    match read s.bytecode s.instruction_pointer with
    | none => none
    | some addr =>
      if cond = 1 ∧ s.integrity_failed = false then
        some { s with stack := rest, instruction_pointer := addr }
      else
        some { s with stack := rest, instruction_pointer := s.instruction_pointer + 1 }

def handle_sub (s : VM) : Option VM :=
  match s.stack with
  | b :: a :: rest => some { s with stack := wrap32 (a - b) :: rest }
  | _ => none

def handle_push_junk (s : VM) : Option VM :=
  some { s with instruction_pointer := s.instruction_pointer + 1 }

def handle_xor (s : VM) : Option VM :=
  match s.stack with
  | b :: a :: rest => some { s with stack := Int.xor a b :: rest }
  | _ => none

def handle_mutate (s : VM) : Option VM :=
  match read s.bytecode s.instruction_pointer with
  | none => none
  | some addr =>
    match read s.bytecode (s.instruction_pointer + 1) with
    | none => none
    | some val =>
      if 0 ≤ addr ∧ addr < s.bytecode.length then
        some { s with instruction_pointer := s.instruction_pointer + 2,
                      bytecode := s.bytecode.set addr.toNat val }
      else
        some { s with instruction_pointer := s.instruction_pointer + 2 }

/-- The argument `elapsed_ns` is `steady_clock::now() - start_time` in nanoseconds;
`duration_cast<seconds>` truncates it to whole seconds. -/
def handle_timing_check (elapsed_ns : Nat) (s : VM) : Option VM :=
  if elapsed_ns / 1000000000 > 2 then
    some { s with output := s.output ++ [Msg.timing_anomaly], integrity_failed := true }
  else some s

def handle_checksum_check (s : VM) : Option VM :=
  match read s.bytecode s.instruction_pointer with
  | none => none
  | some start =>
    match read s.bytecode (s.instruction_pointer + 1) with
    | none => none
    | some len =>
      match read s.bytecode (s.instruction_pointer + 2) with
      | none => none
      | some expected =>
        match accumulate_bit_xor s.bytecode start len with
        | none => none
        | some actual =>
          if actual ≠ expected then
            some { s with instruction_pointer := s.instruction_pointer + 3,
                          output := s.output ++ [Msg.checksum_mismatch],
                          integrity_failed := true }
          else
            some { s with instruction_pointer := s.instruction_pointer + 3 }

def handle_checksum_push (s : VM) : Option VM :=
  match read s.bytecode s.instruction_pointer with
  | none => none
  | some start =>
    match read s.bytecode (s.instruction_pointer + 1) with
    | none => none
    | some len =>
      match accumulate_bit_xor s.bytecode start len with
      | none => none
      | some actual =>
        some { s with instruction_pointer := s.instruction_pointer + 2,
                      stack := actual :: s.stack }

/-- The three lines of `handle_rotl` that compute the pushed value from `v` and `bits`:
the cast to `unsigned int`, `(u << bits) | (u >> (32 - bits))` on 32-bit unsigned
values, and the cast back to `int`. -/
def rotl32 (v bits : Int) : Int :=
  let u : Nat := (v % 4294967296).toNat
  let rot : Nat := ((u <<< bits.toNat) % 4294967296) ||| (u >>> (32 - bits.toNat))
  wrap32 (rot : Int)

/-- Both shift counts of the rotation must lie in `0..31`, which is the case exactly
for `0 < bits < 32`; any other operand is undefined behaviour. -/
def handle_rotl (s : VM) : Option VM :=
  match read s.bytecode s.instruction_pointer with
  | none => none
  | some bits =>
    match s.stack with
    | [] => none
    | v :: rest =>
      if 0 < bits ∧ bits < 32 then
        some { s with instruction_pointer := s.instruction_pointer + 1,
                      stack := rotl32 v bits :: rest }
      else none

def handle_unknown (s : VM) : Option VM :=
  some { s with output := s.output ++ [Msg.unknown_opcode], is_running := false }

/-! ## Dispatch -/

/-- The expression `(opcode * 17 + 3) % 50` on `int`: wrapping product and sum,
remainder truncated towards zero. -/
def dispatch_key (opcode : Int) : Int := Int.tmod (wrap32 (opcode * 17 + 3)) 50

/-- A handler as stored in the table: it may read the clock. -/
abbrev Handler := Nat → VM → Option VM

/-- The assignment `m[k] = h` of `std::map`. -/
def map_assign (m : List (Int × Handler)) (k : Int) (h : Handler) : List (Int × Handler) :=
  (k, h) :: m.filter (fun p => p.1 ≠ k)

/-- The table built by `VM::initialize_handlers`, in the order of its assignments. -/
def opcode_handlers : List (Int × Handler) :=
  let m0 : List (Int × Handler) := []
  let m1 := map_assign m0 (dispatch_key VM_PUSH) (fun _ => handle_push)
  let m2 := map_assign m1 (dispatch_key VM_POP) (fun _ => handle_pop)
  let m3 := map_assign m2 (dispatch_key VM_ADD) (fun _ => handle_add)
  let m4 := map_assign m3 (dispatch_key VM_RET) (fun _ => handle_ret)
  let m5 := map_assign m4 (dispatch_key VM_CALL_EXTERNAL) (fun _ => handle_call_external)
  let m6 := map_assign m5 (dispatch_key VM_CMP) (fun _ => handle_cmp)
  let m7 := map_assign m6 (dispatch_key VM_JUMP_IF_EQUAL) (fun _ => handle_jump_if_equal)
  let m8 := map_assign m7 (dispatch_key VM_SUB) (fun _ => handle_sub)
  let m9 := map_assign m8 (dispatch_key VM_PUSH_JUNK) (fun _ => handle_push_junk)
  let m10 := map_assign m9 (dispatch_key VM_XOR) (fun _ => handle_xor)
  let m11 := map_assign m10 (dispatch_key VM_MUTATE) (fun _ => handle_mutate)
  let m12 := map_assign m11 (dispatch_key VM_TIMING_CHECK) handle_timing_check
  let m13 := map_assign m12 (dispatch_key VM_CHECKSUM_CHECK) (fun _ => handle_checksum_check)
  let m14 := map_assign m13 (dispatch_key VM_CHECKSUM_PUSH) (fun _ => handle_checksum_push)
  map_assign m14 (dispatch_key VM_ROTL) (fun _ => handle_rotl)

/-! ## `VM::run` -/

/-- The body of the loop after its two guards: fetch one opcode word, advance the
instruction pointer, and run the handler stored under the word's key, or
`handle_unknown` when the table has none. -/
def fetch_execute (elapsed_ns : Nat) (s : VM) : Option VM :=
  match read s.bytecode s.instruction_pointer with
  | none => none
  | some opcode =>
    let s1 : VM := { s with instruction_pointer := s.instruction_pointer + 1 }
    match opcode_handlers.lookup (dispatch_key opcode) with
    | some h => h elapsed_ns s1
    | none => handle_unknown s1

/-- How a call of `run` ends: it returns in some state, it runs into undefined
behaviour, or the model's cycle budget is used up. -/
inductive RunResult where
  | returned (s : VM)
  | undefined
  | out_of_fuel
  deriving DecidableEq, Repr

/-- The `while (is_running)` loop. `clock n` is the elapsed time a handler reads
in cycle `n`; the comparison `instruction_pointer >= bytecode.size()` is made
on unsigned values, so a negative pointer compares greater. -/
def run_loop (clock : Nat → Nat) : Nat → Nat → VM → RunResult
  | 0, _, _ => RunResult.out_of_fuel
  | fuel + 1, n, s =>
    if s.is_running = false then RunResult.returned s
    else if s.integrity_failed = true then
      RunResult.returned { s with output := s.output ++ [Msg.integrity_halt] }
    else if s.instruction_pointer < 0 ∨ (s.bytecode.length : Int) ≤ s.instruction_pointer then
      RunResult.returned { s with is_running := false }
    else
      match fetch_execute (clock n) s with
      | none => RunResult.undefined
      | some s1 => run_loop clock fuel (n + 1) s1

/-- The method `VM::run`: it sets `is_running` and enters the loop; it does not
touch `instruction_pointer`, `stack` or `integrity_failed`. -/
def run (clock : Nat → Nat) (fuel : Nat) (s : VM) : RunResult :=
  run_loop clock fuel 0 { s with is_running := true }

/-! ## The checksum as the specification words it -/

/-- The XOR-fold `range[0] ^ range[1] ^ ... ^ range[len-1]` of a range of words,
with `0` for the empty range. -/
def xor_fold : List Int → Int
  | [] => 0
  | x :: xs => Int.xor x (xor_fold xs)

/-- The half-open range `Program[start..start+len)`. -/
def program_range (code : List Int) (start len : Int) : List Int :=
  (code.drop start.toNat).take len.toNat

/-! ## Turns of the loop, counted -/

/-- The state in which the loop of `run`, entered in state `s` at cycle `n`, evaluates
its condition for the `k+1`-th time: `k` turns have each passed the loop condition and
both guards and run `fetch_execute`. It is `none` when the loop ends, or runs into
undefined behaviour, before that. -/
def cycles (clock : Nat → Nat) : Nat → Nat → VM → Option VM
  | 0, _, s => some s
  | k + 1, n, s =>
    if s.is_running = false then none
    else if s.integrity_failed = true then none
    else if s.instruction_pointer < 0 ∨ (s.bytecode.length : Int) ≤ s.instruction_pointer then none
    else
      match fetch_execute (clock n) s with
      | none => none
      | some s1 => cycles clock k (n + 1) s1

/-- Whether the cycle about to start in `s` is a `jump_if_equal` that takes its jump: the
word at the pointer has the key of `VM_JUMP_IF_EQUAL`, the top of the stack is 1 and
the Integrity Flag is false. -/
def takes_jump (s : VM) : Bool :=
  match read s.bytecode s.instruction_pointer, s.stack with
  | some w, cond :: _ =>
    dispatch_key w == dispatch_key VM_JUMP_IF_EQUAL && cond == 1 && !s.integrity_failed
  | _, _ => false

/-- The number of operand words of each defined opcode, as the handlers consume them:
none for pop, add, ret, cmp, sub, xor, timing_check; one for push, call_external,
jump_if_equal, push_junk, rotl; two for mutate and checksum_push; three for
checksum_check. -/
def operand_count (opcode : Int) : Int :=
  if opcode = VM_PUSH ∨ opcode = VM_CALL_EXTERNAL ∨ opcode = VM_JUMP_IF_EQUAL ∨
      opcode = VM_PUSH_JUNK ∨ opcode = VM_ROTL then 1
  else if opcode = VM_MUTATE ∨ opcode = VM_CHECKSUM_PUSH then 2
  else if opcode = VM_CHECKSUM_CHECK then 3
  else 0

/-! ## The host program of `main.cpp` -/

/-- The function `calculate_checksum`: `std::accumulate` with `std::bit_xor` from 0. -/
def calculate_checksum (data : List Int) : Int :=
  data.foldl (fun acc x => Int.xor acc x) 0

/-- The lambda `add_instruction`: append the instruction, then a `mutate` that
overwrites the instruction's first word with `VM_PUSH_JUNK`. -/
def add_instruction (bytecode instr : List Int) : List Int :=
  bytecode ++ instr ++ [VM_MUTATE, (bytecode.length : Int), VM_PUSH_JUNK]

/-- The bytecode `main` assembles, statement by statement; addresses are the vector
sizes `main` records, and the last lines are its patches. -/
def main_bytecode (user_input authSuccessId authFailureId : Int) : List Int :=
  let bytecode : List Int := []
  let bytecode := add_instruction bytecode [VM_PUSH, user_input]
  let checksum_check_instr_addr : Nat := bytecode.length
  let bytecode := bytecode ++ [VM_CHECKSUM_CHECK, 0, 0, 0]
  let bytecode := bytecode ++ [VM_MUTATE, (checksum_check_instr_addr : Int), VM_PUSH_JUNK]
  let critical_section_start_addr : Nat := bytecode.length
  let c1_instr_addr : Nat := bytecode.length
  let bytecode := bytecode ++ [VM_CHECKSUM_PUSH, 0, 0]
  let bytecode := bytecode ++ [VM_MUTATE, (c1_instr_addr : Int), VM_PUSH_JUNK]
  let c2_instr_addr : Nat := bytecode.length
  let bytecode := bytecode ++ [VM_CHECKSUM_PUSH, 0, 0]
  let bytecode := bytecode ++ [VM_MUTATE, (c2_instr_addr : Int), VM_PUSH_JUNK]
  let bytecode := add_instruction bytecode [VM_XOR]
  let bytecode := add_instruction bytecode [VM_ROTL, 5]
  let bytecode := add_instruction bytecode [VM_CMP]
  let jump_instr_addr : Nat := bytecode.length
  let bytecode := add_instruction bytecode [VM_JUMP_IF_EQUAL, 0]
  let critical_section_len : Nat := bytecode.length - critical_section_start_addr
  let call_fail_addr : Nat := bytecode.length
  let bytecode := add_instruction bytecode [VM_CALL_EXTERNAL, authFailureId]
  let bytecode := add_instruction bytecode [VM_MUTATE, ((call_fail_addr + 1 : Nat) : Int),
    authSuccessId]
  let bytecode := add_instruction bytecode [VM_TIMING_CHECK]
  let bytecode := bytecode ++ [VM_RET]
  let success_branch_addr : Nat := bytecode.length
  let call_succ_addr : Nat := bytecode.length
  let bytecode := add_instruction bytecode [VM_CALL_EXTERNAL, authSuccessId]
  let bytecode := add_instruction bytecode [VM_MUTATE, ((call_succ_addr + 1 : Nat) : Int),
    authFailureId]
  let bytecode := add_instruction bytecode [VM_TIMING_CHECK]
  let bytecode := bytecode ++ [VM_RET]
  let bytecode := bytecode.set (jump_instr_addr + 1) (success_branch_addr : Int)
  let bytecode := bytecode.set (c1_instr_addr + 1) (critical_section_start_addr : Int)
  let bytecode := bytecode.set (c1_instr_addr + 2) (critical_section_len : Int)
  let sub_off : Nat := if critical_section_len / 2 ≤ 0 then 0 else critical_section_len / 4
  let sub_len : Nat :=
    if critical_section_len / 2 ≤ 0 then critical_section_len else critical_section_len / 2
  let bytecode := bytecode.set (c2_instr_addr + 1) ((critical_section_start_addr + sub_off : Nat) : Int)
  let bytecode := bytecode.set (c2_instr_addr + 2) (sub_len : Int)
  let crit_section_data : List Int :=
    (bytecode.drop critical_section_start_addr).take critical_section_len
  let expected_checksum : Int := calculate_checksum crit_section_data
  let bytecode := bytecode.set (checksum_check_instr_addr + 1) (critical_section_start_addr : Int)
  let bytecode := bytecode.set (checksum_check_instr_addr + 2) (critical_section_len : Int)
  let bytecode := bytecode.set (checksum_check_instr_addr + 3) expected_checksum
  bytecode

/-- The VM as `main` prepares it before `run`: the success callback registered under
`authSuccessId`, then the failure callback under `authSuccessId ^ 0x5A5A5A5A`, then the
assembled bytecode loaded. -/
def main_vm (user_input authSuccessId : Int) (cb_success cb_failure : Nat) : VM :=
  let authFailureId : Int := Int.xor authSuccessId 1515870810
  let my_vm := VM.fresh
  let my_vm := register_external_call authSuccessId cb_success my_vm
  let my_vm := register_external_call authFailureId cb_failure my_vm
  load_bytecode (main_bytecode user_input authSuccessId authFailureId) my_vm

/-- The key the stack plan of `main` accepts, in the words of the plan: `rotl32(C1 ^ C2, 5)`
with `C1` the XOR-fold of the critical section of the assembled bytecode (start 12,
length 30) and `C2` the XOR-fold of its middle sub-window (offset `len / 4`, length
`len / 2`). -/
def main_accepted_key (code : List Int) : Int :=
  rotl32
    (Int.xor (xor_fold (program_range code 12 30))
      (xor_fold (program_range code (12 + 30 / 4) (30 / 2)))) 5

/-! ## Dispatch of the fifteen defined opcodes -/

theorem lookup_push :
    opcode_handlers.lookup (dispatch_key VM_PUSH) = some (fun _ => handle_push) := rfl

theorem lookup_pop :
    opcode_handlers.lookup (dispatch_key VM_POP) = some (fun _ => handle_pop) := rfl

theorem lookup_add :
    opcode_handlers.lookup (dispatch_key VM_ADD) = some (fun _ => handle_add) := rfl

theorem lookup_ret :
    opcode_handlers.lookup (dispatch_key VM_RET) = some (fun _ => handle_ret) := rfl

theorem lookup_call_external :
    opcode_handlers.lookup (dispatch_key VM_CALL_EXTERNAL)
      = some (fun _ => handle_call_external) := rfl

theorem lookup_cmp :
    opcode_handlers.lookup (dispatch_key VM_CMP) = some (fun _ => handle_cmp) := rfl

theorem lookup_jump_if_equal :
    opcode_handlers.lookup (dispatch_key VM_JUMP_IF_EQUAL)
      = some (fun _ => handle_jump_if_equal) := rfl

theorem lookup_sub :
    opcode_handlers.lookup (dispatch_key VM_SUB) = some (fun _ => handle_sub) := rfl

theorem lookup_push_junk :
    opcode_handlers.lookup (dispatch_key VM_PUSH_JUNK) = some (fun _ => handle_push_junk) := rfl

theorem lookup_xor :
    opcode_handlers.lookup (dispatch_key VM_XOR) = some (fun _ => handle_xor) := rfl

theorem lookup_mutate :
    opcode_handlers.lookup (dispatch_key VM_MUTATE) = some (fun _ => handle_mutate) := rfl

theorem lookup_timing_check :
    opcode_handlers.lookup (dispatch_key VM_TIMING_CHECK) = some handle_timing_check := rfl

theorem lookup_checksum_check :
    opcode_handlers.lookup (dispatch_key VM_CHECKSUM_CHECK)
      = some (fun _ => handle_checksum_check) := rfl

theorem lookup_checksum_push :
    opcode_handlers.lookup (dispatch_key VM_CHECKSUM_PUSH)
      = some (fun _ => handle_checksum_push) := rfl

theorem lookup_rotl :
    opcode_handlers.lookup (dispatch_key VM_ROTL) = some (fun _ => handle_rotl) := rfl

/-! ## Reading words -/

theorem read_some_bounds {code : List Int} {i w : Int} (h : read code i = some w) :
    0 ≤ i ∧ i < code.length := by
  unfold read at h
  split at h
  · cases h
  · rename_i hi
    have hlt : i.toNat < code.length := by
      by_contra hge
      rw [List.getElem?_eq_none (Nat.le_of_not_lt hge)] at h
      cases h
    omega

/-! ## One turn of the loop -/

theorem run_loop_cycle (clock : Nat → Nat) (fuel n : Nat) (s s1 : VM) (w : Int)
    (hrun : s.is_running = true) (hint : s.integrity_failed = false)
    (hop : read s.bytecode s.instruction_pointer = some w)
    (hstep : fetch_execute (clock n) s = some s1) :
    run_loop clock (fuel + 1) n s = run_loop clock fuel (n + 1) s1 := by
  have hb := read_some_bounds hop
  have hguard : ¬ (s.instruction_pointer < 0 ∨ (s.bytecode.length : Int) ≤ s.instruction_pointer) := by
    omega
  simp [run_loop, hrun, hint, hguard, hstep]

theorem run_loop_integrity (clock : Nat → Nat) (fuel n : Nat) (s : VM)
    (hrun : s.is_running = true) (hint : s.integrity_failed = true) :
    run_loop clock (fuel + 1) n s
      = RunResult.returned { s with output := s.output ++ [Msg.integrity_halt] } := by
  simp [run_loop, hrun, hint]

/-! ## Bitwise exclusive or on `Int` and the two forms of the checksum -/

theorem int_xor_assoc (a b c : Int) : Int.xor (Int.xor a b) c = Int.xor a (Int.xor b c) := by
  cases a <;> cases b <;> cases c <;> simp [Int.xor, Nat.xor_assoc]

theorem int_xor_zero (a : Int) : Int.xor a 0 = a := by
  cases a <;> simp [Int.xor]

theorem int_zero_xor (a : Int) : Int.xor 0 a = a := by
  cases a <;> simp [Int.xor]

theorem foldl_xor_eq (l : List Int) (acc : Int) :
    l.foldl (fun acc x => Int.xor acc x) acc = Int.xor acc (xor_fold l) := by
  induction l generalizing acc with
  | nil => simp [xor_fold, int_xor_zero]
  | cons x xs ih => simp [xor_fold, ih, int_xor_assoc]

theorem xor_fold_append (l1 l2 : List Int) :
    xor_fold (l1 ++ l2) = Int.xor (xor_fold l1) (xor_fold l2) := by
  induction l1 with
  | nil => simp [xor_fold, int_zero_xor]
  | cons x xs ih => simp [xor_fold, ih, int_xor_assoc]

/-- On a range inside the program the `std::accumulate` call is defined and
returns the XOR-fold of the range. -/
theorem accumulate_bit_xor_eq (code : List Int) (start len : Int)
    (hs : 0 ≤ start) (hl : 0 ≤ len) (hb : start + len ≤ code.length) :
    accumulate_bit_xor code start len = some (xor_fold (program_range code start len)) := by
  have h : 0 ≤ start ∧ 0 ≤ len ∧ start + len ≤ code.length := ⟨hs, hl, hb⟩
  simp [accumulate_bit_xor, h, foldl_xor_eq, int_zero_xor, program_range]

theorem program_range_add (code : List Int) (start len1 len2 : Int)
    (hs : 0 ≤ start) (h1 : 0 ≤ len1) (h2 : 0 ≤ len2) :
    program_range code start (len1 + len2)
      = program_range code start len1 ++ program_range code (start + len1) len2 := by
  unfold program_range
  rw [Int.toNat_add h1 h2, Int.toNat_add hs h1, List.take_add, List.drop_drop]

/-! ## C1: two pushes, one binary opcode, return -/

/-- C1: on a fresh VM each of the programs `[push, a, push, b, op, ret]` with `op` one of
add, sub, xor, cmp returns from `run` with `is_running` false and the Integrity Flag
false, and `get_result` is then `a + b` and `a - b` in 32-bit two's complement,
`a ^ b`, and `1` or `0` according to whether `a = b`. -/
theorem run_push_push_binop (a b : Int) (clock : Nat → Nat) (fuel : Nat) :
    (∃ s, run clock (fuel + 5) (load_bytecode [VM_PUSH, a, VM_PUSH, b, VM_ADD, VM_RET] VM.fresh)
        = RunResult.returned s ∧ s.is_running = false ∧ s.integrity_failed = false ∧
          get_result s = wrap32 (a + b)) ∧
    (∃ s, run clock (fuel + 5) (load_bytecode [VM_PUSH, a, VM_PUSH, b, VM_SUB, VM_RET] VM.fresh)
        = RunResult.returned s ∧ s.is_running = false ∧ s.integrity_failed = false ∧
          get_result s = wrap32 (a - b)) ∧
    (∃ s, run clock (fuel + 5) (load_bytecode [VM_PUSH, a, VM_PUSH, b, VM_XOR, VM_RET] VM.fresh)
        = RunResult.returned s ∧ s.is_running = false ∧ s.integrity_failed = false ∧
          get_result s = Int.xor a b) ∧
    (∃ s, run clock (fuel + 5) (load_bytecode [VM_PUSH, a, VM_PUSH, b, VM_CMP, VM_RET] VM.fresh)
        = RunResult.returned s ∧ s.is_running = false ∧ s.integrity_failed = false ∧
          get_result s = if a = b then 1 else 0) := by
  refine ⟨?_, ?_, ?_, ?_⟩
  · refine ⟨{ VM.fresh with bytecode := [VM_PUSH, a, VM_PUSH, b, VM_ADD, VM_RET],
                            stack := [wrap32 (a + b)], instruction_pointer := 6 },
      ?_, rfl, rfl, rfl⟩
    simp [run, run_loop, load_bytecode, VM.fresh, fetch_execute, read, lookup_push, lookup_add,
      lookup_ret, handle_push, handle_add, handle_ret]
  · refine ⟨{ VM.fresh with bytecode := [VM_PUSH, a, VM_PUSH, b, VM_SUB, VM_RET],
                            stack := [wrap32 (a - b)], instruction_pointer := 6 },
      ?_, rfl, rfl, rfl⟩
    simp [run, run_loop, load_bytecode, VM.fresh, fetch_execute, read, lookup_push, lookup_sub,
      lookup_ret, handle_push, handle_sub, handle_ret]
  · refine ⟨{ VM.fresh with bytecode := [VM_PUSH, a, VM_PUSH, b, VM_XOR, VM_RET],
                            stack := [Int.xor a b], instruction_pointer := 6 },
      ?_, rfl, rfl, rfl⟩
    simp [run, run_loop, load_bytecode, VM.fresh, fetch_execute, read, lookup_push, lookup_xor,
      lookup_ret, handle_push, handle_xor, handle_ret]
  · refine ⟨{ VM.fresh with bytecode := [VM_PUSH, a, VM_PUSH, b, VM_CMP, VM_RET],
                            stack := [if a = b then 1 else 0], instruction_pointer := 6 },
      ?_, rfl, rfl, rfl⟩
    simp [run, run_loop, load_bytecode, VM.fresh, fetch_execute, read, lookup_push, lookup_cmp,
      lookup_ret, handle_push, handle_cmp, handle_ret]

/-! ## C2: a failed checksum check ends the run -/

/-- C2: in a running state whose next opcode is `checksum_check` with operands
`start`, `len`, `expected`, the range lying inside the program and `expected` differing
from the XOR-fold of `Program[start..start+len)`, the cycle is defined and sets the
Integrity Flag, and the loop then returns with the stack and the program of the end of
that cycle, the stack being the one from before the check. -/
theorem checksum_check_mismatch_halts (clock : Nat → Nat) (fuel n : Nat) (s : VM)
    (start len expected : Int)
    (hrun : s.is_running = true) (hint : s.integrity_failed = false)
    (hop : read s.bytecode s.instruction_pointer = some VM_CHECKSUM_CHECK)
    (h1 : read s.bytecode (s.instruction_pointer + 1) = some start)
    (h2 : read s.bytecode (s.instruction_pointer + 2) = some len)
    (h3 : read s.bytecode (s.instruction_pointer + 3) = some expected)
    (hs : 0 ≤ start) (hl : 0 ≤ len) (hb : start + len ≤ s.bytecode.length)
    (hne : expected ≠ xor_fold (program_range s.bytecode start len)) :
    ∃ s1 s2, fetch_execute (clock n) s = some s1 ∧ s1.integrity_failed = true ∧
      run_loop clock (fuel + 2) n s = RunResult.returned s2 ∧
      s2.stack = s1.stack ∧ s2.bytecode = s1.bytecode ∧
      s2.instruction_pointer = s1.instruction_pointer ∧ s2.fired = s1.fired ∧
      s2.stack = s.stack ∧ s2.integrity_failed = true := by
  have e2 : s.instruction_pointer + 1 + 1 = s.instruction_pointer + 2 := by ring
  have e3 : s.instruction_pointer + 1 + 2 = s.instruction_pointer + 3 := by ring
  have hne2 : ¬ xor_fold (program_range s.bytecode start len) = expected := fun h => hne h.symm
  have hstep : fetch_execute (clock n) s
      = some { s with instruction_pointer := s.instruction_pointer + 1 + 3,
                      output := s.output ++ [Msg.checksum_mismatch],
                      integrity_failed := true } := by
    simp [fetch_execute, hop, lookup_checksum_check, handle_checksum_check, h1, e2, h2, e3, h3,
      accumulate_bit_xor_eq _ _ _ hs hl hb, hne2]
  have hloop := run_loop_cycle clock (fuel + 1) n s _ _ hrun hint hop hstep
  rw [run_loop_integrity clock fuel (n + 1)
    { s with instruction_pointer := s.instruction_pointer + 1 + 3,
             output := s.output ++ [Msg.checksum_mismatch],
             integrity_failed := true } hrun rfl] at hloop
  exact ⟨_, _, hstep, rfl, hloop, rfl, rfl, rfl, rfl, rfl, rfl⟩

/-- C2, at a concrete program: a check of `Program[0..2)` against the wrong value 5,
followed by `push 99`. -/
theorem checksum_check_mismatch_halts_witness :
    ∃ s1 s2,
      fetch_execute 0 { load_bytecode [12, 0, 2, 5, 0, 99, 3] VM.fresh with is_running := true }
        = some s1 ∧ s1.integrity_failed = true ∧
      run_loop (fun _ => 0) 2 0
          { load_bytecode [12, 0, 2, 5, 0, 99, 3] VM.fresh with is_running := true }
        = RunResult.returned s2 ∧
      s2.stack = s1.stack ∧ s2.bytecode = s1.bytecode ∧
      s2.instruction_pointer = s1.instruction_pointer ∧ s2.fired = s1.fired ∧
      s2.stack = [] ∧ s2.integrity_failed = true :=
  checksum_check_mismatch_halts (fun _ => 0) 0 0
    { load_bytecode [12, 0, 2, 5, 0, 99, 3] VM.fresh with is_running := true } 0 2 5
    rfl rfl rfl rfl rfl rfl (by decide) (by decide) (by decide) (by decide)

/-! ## C3: the halted state is absorbing -/

/-- C3: in a running state whose Integrity Flag is true the loop returns at once,
without a fetch: the program, the stack, the instruction pointer and the callbacks
fired are those of the state, and the same holds for a new call of `run`. -/
theorem integrity_failed_absorbing (clock : Nat → Nat) (fuel n : Nat) (s : VM)
    (hint : s.integrity_failed = true) :
    (s.is_running = true →
      ∃ s1, run_loop clock (fuel + 1) n s = RunResult.returned s1 ∧
        s1.bytecode = s.bytecode ∧ s1.stack = s.stack ∧
        s1.instruction_pointer = s.instruction_pointer ∧ s1.fired = s.fired ∧
        s1.integrity_failed = true) ∧
    (∃ s1, run clock (fuel + 1) s = RunResult.returned s1 ∧
        s1.bytecode = s.bytecode ∧ s1.stack = s.stack ∧
        s1.instruction_pointer = s.instruction_pointer ∧ s1.fired = s.fired ∧
        s1.integrity_failed = true) := by
  constructor
  · intro hrun
    exact ⟨_, run_loop_integrity clock fuel n s hrun hint, rfl, rfl, rfl, rfl, hint⟩
  · refine ⟨_, run_loop_integrity clock fuel 0 { s with is_running := true } rfl hint,
      rfl, rfl, rfl, rfl, hint⟩

/-- C3, at a concrete state: the flag is set, the next word is `mutate`, and nothing
of it is executed. -/
theorem integrity_failed_absorbing_witness :
    (∃ s1, run_loop (fun _ => 0) 1 0
          { load_bytecode [10, 0, 3, 2, 4, 7] VM.fresh with
              stack := [1, 2], integrity_failed := true, is_running := true }
        = RunResult.returned s1 ∧
        s1.bytecode = [10, 0, 3, 2, 4, 7] ∧ s1.stack = [1, 2] ∧
        s1.instruction_pointer = 0 ∧ s1.fired = [] ∧ s1.integrity_failed = true) ∧
    (∃ s1, run (fun _ => 0) 1
          { load_bytecode [10, 0, 3, 2, 4, 7] VM.fresh with
              stack := [1, 2], integrity_failed := true, is_running := true }
        = RunResult.returned s1 ∧
        s1.bytecode = [10, 0, 3, 2, 4, 7] ∧ s1.stack = [1, 2] ∧
        s1.instruction_pointer = 0 ∧ s1.fired = [] ∧ s1.integrity_failed = true) :=
  ⟨(integrity_failed_absorbing (fun _ => 0) 0 0
      { load_bytecode [10, 0, 3, 2, 4, 7] VM.fresh with
          stack := [1, 2], integrity_failed := true, is_running := true } rfl).1 rfl,
   (integrity_failed_absorbing (fun _ => 0) 0 0
      { load_bytecode [10, 0, 3, 2, 4, 7] VM.fresh with
          stack := [1, 2], integrity_failed := true, is_running := true } rfl).2⟩

/-! ## C4: the conditional jump -/

/-- C4: with `cond` on top of the stack and the operand `addr` inside the program,
`jump_if_equal` is defined, pops `cond`, and sets the instruction pointer to `addr` when
`cond = 1` and the Integrity Flag is false, and to the index after the operand in every
other case; the rest of the stack, the program and all other members are unchanged. -/
theorem jump_if_equal_effect (s : VM) (cond addr : Int) (rest : List Int)
    (hstack : s.stack = cond :: rest)
    (haddr : read s.bytecode s.instruction_pointer = some addr) :
    handle_jump_if_equal s
      = some { s with stack := rest,
                      instruction_pointer :=
                        if cond = 1 ∧ s.integrity_failed = false then addr
                        else s.instruction_pointer + 1 } := by
  unfold handle_jump_if_equal
  rw [hstack]
  simp only [haddr]
  split <;> rfl

/-- C4, at concrete states: the jump taken (`cond = 1`, flag false), and the three ways
of falling through (`cond = 0`, `cond = 2`, and `cond = 1` with the flag true). -/
theorem jump_if_equal_effect_witness :
    handle_jump_if_equal
        { load_bytecode [6, 4, 3, 3, 3] VM.fresh with instruction_pointer := 1, stack := [1, 9] }
      = some { load_bytecode [6, 4, 3, 3, 3] VM.fresh with instruction_pointer := 4, stack := [9] } ∧
    handle_jump_if_equal
        { load_bytecode [6, 4, 3, 3, 3] VM.fresh with instruction_pointer := 1, stack := [0, 9] }
      = some { load_bytecode [6, 4, 3, 3, 3] VM.fresh with instruction_pointer := 2, stack := [9] } ∧
    handle_jump_if_equal
        { load_bytecode [6, 4, 3, 3, 3] VM.fresh with instruction_pointer := 1, stack := [2, 9] }
      = some { load_bytecode [6, 4, 3, 3, 3] VM.fresh with instruction_pointer := 2, stack := [9] } ∧
    handle_jump_if_equal
        { load_bytecode [6, 4, 3, 3, 3] VM.fresh with
            instruction_pointer := 1, stack := [1, 9], integrity_failed := true }
      = some { load_bytecode [6, 4, 3, 3, 3] VM.fresh with
                 instruction_pointer := 2, stack := [9], integrity_failed := true } :=
  ⟨jump_if_equal_effect
      { load_bytecode [6, 4, 3, 3, 3] VM.fresh with instruction_pointer := 1, stack := [1, 9] }
      1 4 [9] rfl rfl,
   jump_if_equal_effect
      { load_bytecode [6, 4, 3, 3, 3] VM.fresh with instruction_pointer := 1, stack := [0, 9] }
      0 4 [9] rfl rfl,
   jump_if_equal_effect
      { load_bytecode [6, 4, 3, 3, 3] VM.fresh with instruction_pointer := 1, stack := [2, 9] }
      2 4 [9] rfl rfl,
   jump_if_equal_effect
      { load_bytecode [6, 4, 3, 3, 3] VM.fresh with
          instruction_pointer := 1, stack := [1, 9], integrity_failed := true }
      1 4 [9] rfl rfl⟩

/-! ## C5 and C6: self-patching -/

theorem read_set_self (code : List Int) (addr val : Int) (h0 : 0 ≤ addr)
    (h1 : addr < code.length) : read (code.set addr.toNat val) addr = some val := by
  have hlt : addr.toNat < code.length := by omega
  have hn : ¬ addr < 0 := by omega
  simp [read, hn, List.getElem?_set, hlt]

theorem read_set_other (code : List Int) (addr val j : Int) (h0 : 0 ≤ addr) (hj : j ≠ addr) :
    read (code.set addr.toNat val) j = read code j := by
  unfold read
  split
  · rfl
  · rename_i hj0
    have hne : addr.toNat ≠ j.toNat := by omega
    simp [List.getElem?_set, hne]

theorem handle_mutate_in_range (s : VM) (addr val : Int)
    (h1 : read s.bytecode s.instruction_pointer = some addr)
    (h2 : read s.bytecode (s.instruction_pointer + 1) = some val)
    (h0 : 0 ≤ addr) (hlt : addr < s.bytecode.length) :
    handle_mutate s
      = some { s with instruction_pointer := s.instruction_pointer + 2,
                      bytecode := s.bytecode.set addr.toNat val } := by
  have hn : 0 ≤ addr ∧ addr < s.bytecode.length := ⟨h0, hlt⟩
  simp [handle_mutate, h1, h2, hn]

/-- C5: when both operands of `mutate` lie inside the program and the address operand
is negative or at least the program length, the handler is defined and changes nothing
but the instruction pointer, which moves past the two operands. -/
theorem mutate_out_of_range (s : VM) (addr val : Int)
    (h1 : read s.bytecode s.instruction_pointer = some addr)
    (h2 : read s.bytecode (s.instruction_pointer + 1) = some val)
    (hbad : addr < 0 ∨ (s.bytecode.length : Int) ≤ addr) :
    handle_mutate s = some { s with instruction_pointer := s.instruction_pointer + 2 } := by
  have hn : ¬ (0 ≤ addr ∧ addr < s.bytecode.length) := by omega
  simp [handle_mutate, h1, h2, hn]

/-- C5, at concrete states: the address equal to the program length, and a negative
address. -/
theorem mutate_out_of_range_witness :
    handle_mutate { load_bytecode [10, 4, 7, 3] VM.fresh with instruction_pointer := 1 }
      = some { load_bytecode [10, 4, 7, 3] VM.fresh with instruction_pointer := 3 } ∧
    handle_mutate { load_bytecode [10, -1, 7, 3] VM.fresh with instruction_pointer := 1 }
      = some { load_bytecode [10, -1, 7, 3] VM.fresh with instruction_pointer := 3 } :=
  ⟨mutate_out_of_range { load_bytecode [10, 4, 7, 3] VM.fresh with instruction_pointer := 1 }
      4 7 rfl rfl (by decide),
   mutate_out_of_range { load_bytecode [10, -1, 7, 3] VM.fresh with instruction_pointer := 1 }
      (-1) 7 (by decide) (by decide) (by decide)⟩

/-- C6: when the address operand of `mutate` is a valid index, the handler is defined,
afterwards `Program[addr] = val`, every other word, the program length, the stack and
both flags are unchanged, and the pointer is past the two operands; when `addr` is the
index of the next fetch, the next cycle dispatches on `val`. The program
`[mutate, 3, ret, push, 5]` returns after the patched `ret` at index 3, the stack empty. -/
theorem mutate_patches_any_word (s : VM) (addr val : Int)
    (h1 : read s.bytecode s.instruction_pointer = some addr)
    (h2 : read s.bytecode (s.instruction_pointer + 1) = some val)
    (h0 : 0 ≤ addr) (hlt : addr < s.bytecode.length) :
    (∃ s1, handle_mutate s = some s1 ∧
      read s1.bytecode addr = some val ∧
      (∀ j, j ≠ addr → read s1.bytecode j = read s.bytecode j) ∧
      s1.bytecode.length = s.bytecode.length ∧
      s1.stack = s.stack ∧ s1.integrity_failed = s.integrity_failed ∧
      s1.is_running = s.is_running ∧
      s1.instruction_pointer = s.instruction_pointer + 2 ∧
      (addr = s.instruction_pointer + 2 → ∀ d,
        fetch_execute d s1 =
          match opcode_handlers.lookup (dispatch_key val) with
          | some h => h d { s1 with instruction_pointer := s1.instruction_pointer + 1 }
          | none => handle_unknown
              { s1 with instruction_pointer := s1.instruction_pointer + 1 })) ∧
    (∀ (clock : Nat → Nat) (fuel : Nat),
      run clock (fuel + 3) (load_bytecode [VM_MUTATE, 3, VM_RET, VM_PUSH, 5] VM.fresh)
        = RunResult.returned
            { VM.fresh with bytecode := [VM_MUTATE, 3, VM_RET, VM_RET, 5],
                            instruction_pointer := 4 }) := by
  constructor
  · refine ⟨_, handle_mutate_in_range s addr val h1 h2 h0 hlt,
      read_set_self _ _ _ h0 hlt, fun j hj => read_set_other _ _ _ _ h0 hj, by simp,
      rfl, rfl, rfl, rfl, ?_⟩
    intro haddr d
    have hr : read (s.bytecode.set addr.toNat val) (s.instruction_pointer + 2) = some val := by
      rw [← haddr]
      exact read_set_self _ _ _ h0 hlt
    simp [fetch_execute, hr]
  · intro clock fuel
    simp [run, run_loop, load_bytecode, VM.fresh, fetch_execute, read, lookup_mutate, lookup_ret,
      handle_mutate, handle_ret]

/-- C6, at the state of `[mutate, 3, ret, push, 5]` after the opcode fetch: the patch
lands on index 3, the index of the next fetch. -/
theorem mutate_patches_any_word_witness :
    (∃ s1, handle_mutate { load_bytecode [10, 3, 3, 0, 5] VM.fresh with instruction_pointer := 1 }
        = some s1 ∧
      read s1.bytecode 3 = some 3 ∧
      (∀ j, j ≠ 3 → read s1.bytecode j = read [10, 3, 3, 0, 5] j) ∧
      s1.bytecode.length = 5 ∧
      s1.stack = [] ∧ s1.integrity_failed = false ∧
      s1.is_running = false ∧
      s1.instruction_pointer = 1 + 2 ∧
      ((3 : Int) = 1 + 2 → ∀ d,
        fetch_execute d s1 =
          match opcode_handlers.lookup (dispatch_key 3) with
          | some h => h d { s1 with instruction_pointer := s1.instruction_pointer + 1 }
          | none => handle_unknown
              { s1 with instruction_pointer := s1.instruction_pointer + 1 })) ∧
    (∀ (clock : Nat → Nat) (fuel : Nat),
      run clock (fuel + 3) (load_bytecode [VM_MUTATE, 3, VM_RET, VM_PUSH, 5] VM.fresh)
        = RunResult.returned
            { VM.fresh with bytecode := [VM_MUTATE, 3, VM_RET, VM_RET, 5],
                            instruction_pointer := 4 }) :=
  mutate_patches_any_word
    { load_bytecode [10, 3, 3, 0, 5] VM.fresh with instruction_pointer := 1 } 3 3
    rfl rfl (by decide) (by decide)

/-! ## C7 and C8: the checksum -/

theorem program_range_length (code : List Int) (start len : Int)
    (hs : 0 ≤ start) (hb : start + len ≤ code.length) :
    (program_range code start len).length = len.toNat := by
  simp [program_range]
  omega

theorem program_range_getElem? (code : List Int) (start len : Int) (i : Nat)
    (hs : 0 ≤ start) (hi : i < len.toNat) :
    (program_range code start len)[i]? = read code (start + i) := by
  have hn : ¬ (start + (i : Int) < 0) := by omega
  have he : (start + (i : Int)).toNat = start.toNat + i := by omega
  simp [program_range, read, hn, he, List.getElem?_take, hi]

/-- C7: in a state whose next opcode is `checksum_push` with operands `start`, `len`
and the range inside the program, the cycle is defined and pushes one value, the XOR-fold
of the `len` words `Program[start]`, ..., `Program[start+len-1]` of the current program
(`0` when `len = 0`); nothing else but the instruction pointer changes. -/
theorem checksum_push_effect (d : Nat) (s : VM) (start len : Int)
    (hop : read s.bytecode s.instruction_pointer = some VM_CHECKSUM_PUSH)
    (h1 : read s.bytecode (s.instruction_pointer + 1) = some start)
    (h2 : read s.bytecode (s.instruction_pointer + 2) = some len)
    (hs : 0 ≤ start) (hl : 0 ≤ len) (hb : start + len ≤ s.bytecode.length) :
    fetch_execute d s
      = some { s with instruction_pointer := s.instruction_pointer + 3,
                      stack := xor_fold (program_range s.bytecode start len) :: s.stack } ∧
    (program_range s.bytecode start len).length = len.toNat ∧
    (∀ i : Nat, i < len.toNat →
      (program_range s.bytecode start len)[i]? = read s.bytecode (start + i)) ∧
    (len = 0 → xor_fold (program_range s.bytecode start len) = 0) := by
  have e2 : s.instruction_pointer + 1 + 1 = s.instruction_pointer + 2 := by ring
  have e3 : s.instruction_pointer + 1 + 2 = s.instruction_pointer + 3 := by ring
  refine ⟨?_, program_range_length _ _ _ hs hb,
    fun i hi => program_range_getElem? _ _ _ _ hs hi, ?_⟩
  · simp [fetch_execute, hop, lookup_checksum_push, handle_checksum_push, h1, e2, h2, e3,
      accumulate_bit_xor_eq _ _ _ hs hl hb]
  · intro h0
    simp [h0, program_range, xor_fold]

/-- C7, at a concrete state: the checksum of `Program[0..3)` of `[13, 0, 3, 3]`. -/
theorem checksum_push_effect_witness :
    fetch_execute 0 (load_bytecode [13, 0, 3, 3] VM.fresh)
      = some { load_bytecode [13, 0, 3, 3] VM.fresh with
                 instruction_pointer := 0 + 3,
                 stack := xor_fold (program_range [13, 0, 3, 3] 0 3) :: [] } ∧
    (program_range [13, 0, 3, 3] 0 3).length = (3 : Int).toNat ∧
    (∀ i : Nat, i < (3 : Int).toNat →
      (program_range [13, 0, 3, 3] 0 3)[i]? = read [13, 0, 3, 3] (0 + i)) ∧
    ((3 : Int) = 0 → xor_fold (program_range [13, 0, 3, 3] 0 3) = 0) :=
  checksum_push_effect 0 (load_bytecode [13, 0, 3, 3] VM.fresh) 0 3
    rfl rfl rfl (by decide) (by decide) (by decide)

/-- C8: for a program `P` and `start`, `len1`, `len2` non-negative with
`start + len1 + len2` at most the length of `P`, the three checksums are defined and
the checksum of the first range XOR the checksum of the adjacent range is the checksum
of their union. -/
theorem checksum_additive (P : List Int) (start len1 len2 : Int)
    (hs : 0 ≤ start) (h1 : 0 ≤ len1) (h2 : 0 ≤ len2)
    (hb : start + len1 + len2 ≤ P.length) :
    ∃ c1 c2 c, accumulate_bit_xor P start len1 = some c1 ∧
      accumulate_bit_xor P (start + len1) len2 = some c2 ∧
      accumulate_bit_xor P start (len1 + len2) = some c ∧
      Int.xor c1 c2 = c := by
  refine ⟨_, _, _, accumulate_bit_xor_eq P start len1 hs h1 (by omega),
    accumulate_bit_xor_eq P (start + len1) len2 (by omega) h2 hb,
    accumulate_bit_xor_eq P start (len1 + len2) hs (by omega) (by omega), ?_⟩
  rw [program_range_add P start len1 len2 hs h1 h2, xor_fold_append]

/-- C8, at a concrete program: `Program[1..3)` and `Program[3..6)` of a seven-word
program. -/
theorem checksum_additive_witness :
    ∃ c1 c2 c, accumulate_bit_xor [13, 6, -7, 3, 12, 255, 9] 1 2 = some c1 ∧
      accumulate_bit_xor [13, 6, -7, 3, 12, 255, 9] (1 + 2) 3 = some c2 ∧
      accumulate_bit_xor [13, 6, -7, 3, 12, 255, 9] 1 (2 + 3) = some c ∧
      Int.xor c1 c2 = c :=
  checksum_additive [13, 6, -7, 3, 12, 255, 9] 1 2 3
    (by decide) (by decide) (by decide) (by decide)

/-! ## C9: rotating left by `k` and then by `32 - k` -/

theorem wrap32_emod (x : Int) : wrap32 x % 4294967296 = x % 4294967296 := by
  unfold wrap32; omega

theorem wrap32_of_int32 (v : Int) (hv : is_int32 v) : wrap32 v = v := by
  unfold wrap32; unfold is_int32 at hv; omega

theorem wrap32_of_emod (v : Int) : wrap32 (v % 4294967296) = wrap32 v := by
  unfold wrap32; omega

theorem rot_or_eq (u a b : Nat) (hu : u < 2 ^ (a + b)) :
    (u <<< a) % 2 ^ (a + b) ||| u >>> b = 2 ^ a * (u % 2 ^ b) + u / 2 ^ b := by
  have h1 : u * 2 ^ a % 2 ^ (a + b) = 2 ^ a * (u % 2 ^ b) := by
    rw [pow_add, mul_comm u, Nat.mul_mod_mul_left]
  have h2 : u / 2 ^ b < 2 ^ a := by
    rw [Nat.div_lt_iff_lt_mul (Nat.two_pow_pos _), ← pow_add]
    exact hu
  rw [Nat.shiftLeft_eq, Nat.shiftRight_eq_div_pow, h1, Nat.mul_add_lt_is_or h2]

theorem rot_or_lt (u a b : Nat) (hu : u < 2 ^ (a + b)) :
    (u <<< a) % 2 ^ (a + b) ||| u >>> b < 2 ^ (a + b) := by
  have h2 : u / 2 ^ b < 2 ^ a := by
    rw [Nat.div_lt_iff_lt_mul (Nat.two_pow_pos _), ← pow_add]
    exact hu
  have h3 : u % 2 ^ b < 2 ^ b := Nat.mod_lt _ (Nat.two_pow_pos _)
  rw [rot_or_eq u a b hu, pow_add]
  calc 2 ^ a * (u % 2 ^ b) + u / 2 ^ b < 2 ^ a * (u % 2 ^ b) + 2 ^ a := by omega
    _ = 2 ^ a * (u % 2 ^ b + 1) := by ring
    _ ≤ 2 ^ a * 2 ^ b := Nat.mul_le_mul_left _ h3

theorem rot_or_round_trip (u a b : Nat) (hu : u < 2 ^ (a + b)) :
    (((u <<< a) % 2 ^ (a + b) ||| u >>> b) <<< b) % 2 ^ (b + a)
      ||| ((u <<< a) % 2 ^ (a + b) ||| u >>> b) >>> a = u := by
  have hr := rot_or_lt u a b hu
  have h2 : u / 2 ^ b < 2 ^ a := by
    rw [Nat.div_lt_iff_lt_mul (Nat.two_pow_pos _), ← pow_add]
    exact hu
  have hr2 : (u <<< a) % 2 ^ (a + b) ||| u >>> b < 2 ^ (b + a) := by
    rw [Nat.add_comm b a]
    exact hr
  rw [rot_or_eq _ b a hr2, rot_or_eq u a b hu, Nat.mul_add_mod, Nat.mod_eq_of_lt h2,
    Nat.mul_add_div (Nat.two_pow_pos _), Nat.div_eq_of_lt h2, Nat.add_zero]
  exact Nat.div_add_mod u (2 ^ b)

theorem rot32_round_trip_nat (u a : Nat) (ha : a < 32) (hu : u < 4294967296) :
    (u <<< a) % 4294967296 ||| u >>> (32 - a) < 4294967296 ∧
    (((u <<< a) % 4294967296 ||| u >>> (32 - a)) <<< (32 - a)) % 4294967296
      ||| ((u <<< a) % 4294967296 ||| u >>> (32 - a)) >>> a = u := by
  have e : a + (32 - a) = 32 := by omega
  have e2 : (32 - a) + a = 32 := by omega
  have hp : (2 : Nat) ^ 32 = 4294967296 := by norm_num
  have hu2 : u < 2 ^ (a + (32 - a)) := by rw [e, hp]; exact hu
  have h1 := rot_or_lt u a (32 - a) hu2
  have h2 := rot_or_round_trip u a (32 - a) hu2
  simp only [e, e2, hp] at h1 h2
  exact ⟨h1, h2⟩

theorem rotl32_round_trip (v k : Int) (hv : is_int32 v) (hk0 : 0 < k) (hk : k < 32) :
    rotl32 (rotl32 v k) (32 - k) = v := by
  obtain ⟨a, rfl⟩ : ∃ a : Nat, k = (a : Int) := ⟨k.toNat, by omega⟩
  have ha : a < 32 := by omega
  have hb : ((32 : Int) - (a : Int)).toNat = 32 - a := by omega
  have hsub : 32 - (32 - a) = a := by omega
  have hu : (v % 4294967296).toNat < 4294967296 := by omega
  obtain ⟨hlt, hrt⟩ := rot32_round_trip_nat _ a ha hu
  have hr : ∀ r : Nat, r < 4294967296 → (wrap32 (r : Int) % 4294967296).toNat = r := by
    intro r hr
    rw [wrap32_emod]
    omega
  unfold rotl32
  simp only [Int.toNat_ofNat, hb, hsub]
  rw [hr _ hlt, hrt]
  have hback : (((v % 4294967296).toNat : Nat) : Int) = v % 4294967296 := by omega
  rw [hback, wrap32_of_emod, wrap32_of_int32 v hv]

theorem fetch_execute_rotl (d : Nat) (s : VM) (v bits : Int) (rest : List Int)
    (hop : read s.bytecode s.instruction_pointer = some VM_ROTL)
    (hbits : read s.bytecode (s.instruction_pointer + 1) = some bits)
    (hstack : s.stack = v :: rest) (h0 : 0 < bits) (h32 : bits < 32) :
    fetch_execute d s
      = some { s with instruction_pointer := s.instruction_pointer + 2,
                      stack := rotl32 v bits :: rest } := by
  have e2 : s.instruction_pointer + 1 + 1 = s.instruction_pointer + 2 := by ring
  have hc : 0 < bits ∧ bits < 32 := ⟨h0, h32⟩
  simp [fetch_execute, hop, lookup_rotl, handle_rotl, hbits, hstack, hc, e2]

/-- C9: for a 32-bit `v` and `0 < k < 32`, two consecutive cycles executing `rotl k` and
`rotl (32 - k)` on a stack whose top is `v` are defined and leave `v` on top of the
unchanged rest of the stack; and `[push, v, rotl, k, rotl, 32-k, ret]` on a fresh VM
returns with `get_result` equal to `v`. -/
theorem rotl_round_trip (v k : Int) (hv : is_int32 v) (hk0 : 0 < k) (hk : k < 32) :
    (∀ (s : VM) (rest : List Int) (d1 d2 : Nat),
      s.stack = v :: rest →
      read s.bytecode s.instruction_pointer = some VM_ROTL →
      read s.bytecode (s.instruction_pointer + 1) = some k →
      read s.bytecode (s.instruction_pointer + 2) = some VM_ROTL →
      read s.bytecode (s.instruction_pointer + 3) = some (32 - k) →
      (fetch_execute d1 s).bind (fetch_execute d2)
        = some { s with instruction_pointer := s.instruction_pointer + 4,
                        stack := v :: rest }) ∧
    (∀ (clock : Nat → Nat) (fuel : Nat),
      ∃ s1, run clock (fuel + 5)
          (load_bytecode [VM_PUSH, v, VM_ROTL, k, VM_ROTL, 32 - k, VM_RET] VM.fresh)
        = RunResult.returned s1 ∧ s1.is_running = false ∧ s1.integrity_failed = false ∧
          get_result s1 = v) := by
  have hk2 : 0 < 32 - k := by omega
  have hk3 : 32 - k < 32 := by omega
  constructor
  · intro s rest d1 d2 hstack hop1 hb1 hop2 hb2
    rw [fetch_execute_rotl d1 s v k rest hop1 hb1 hstack hk0 hk]
    have e3 : s.instruction_pointer + 2 + 1 = s.instruction_pointer + 3 := by ring
    have e4 : s.instruction_pointer + 2 + 2 = s.instruction_pointer + 4 := by ring
    have hstep := fetch_execute_rotl d2
      { s with instruction_pointer := s.instruction_pointer + 2, stack := rotl32 v k :: rest }
      (rotl32 v k) (32 - k) rest hop2 (by rw [e3]; exact hb2) rfl hk2 hk3
    rw [Option.some_bind, hstep, rotl32_round_trip v k hv hk0 hk]
    simp only [e4]
  · intro clock fuel
    refine ⟨{ VM.fresh with
                bytecode := [VM_PUSH, v, VM_ROTL, k, VM_ROTL, 32 - k, VM_RET],
                stack := [v], instruction_pointer := 7 }, ?_, rfl, rfl, rfl⟩
    have hc1 : 0 < k ∧ k < 32 := ⟨hk0, hk⟩
    have hc2 : 0 < 32 - k ∧ 32 - k < 32 := ⟨hk2, hk3⟩
    simp [run, run_loop, load_bytecode, VM.fresh, fetch_execute, read, lookup_push, lookup_rotl,
      lookup_ret, handle_push, handle_rotl, handle_ret, hc1, hc2,
      rotl32_round_trip v k hv hk0 hk]

/-- C9, at `v = -5` and `k = 3`. -/
theorem rotl_round_trip_witness :
    is_int32 (-5) ∧ (0 : Int) < 3 ∧ (3 : Int) < 32 ∧
    (∀ (clock : Nat → Nat) (fuel : Nat),
      ∃ s1, run clock (fuel + 5)
          (load_bytecode [VM_PUSH, -5, VM_ROTL, 3, VM_ROTL, 32 - 3, VM_RET] VM.fresh)
        = RunResult.returned s1 ∧ s1.is_running = false ∧ s1.integrity_failed = false ∧
          get_result s1 = -5) :=
  ⟨by decide, by decide, by decide,
    (rotl_round_trip (-5) 3 (by decide) (by decide) (by decide)).2⟩

/-! ## C10: the end-to-end scenario -/

/-- C10: with distinct identifiers `FAIL_ID` and `SUCCESS_ID` registered to distinct
recording callbacks, the 14-word program
`[push,7, push,7, cmp, jump_if_equal,10, call_external,FAIL_ID, ret, pop,
call_external,SUCCESS_ID, ret]` on a fresh VM returns from `run` having fired the success
callback exactly once and the failure callback never, with `is_running` false, the
Integrity Flag false and the stack empty. -/
theorem end_to_end_scenario (FAIL_ID SUCCESS_ID : Int) (cb_fail cb_success : Nat)
    (hid : FAIL_ID ≠ SUCCESS_ID) (hcb : cb_fail ≠ cb_success)
    (clock : Nat → Nat) (fuel : Nat) :
    ∃ s, run clock (fuel + 8)
        (load_bytecode
          [VM_PUSH, 7, VM_PUSH, 7, VM_CMP, VM_JUMP_IF_EQUAL, 10, VM_CALL_EXTERNAL, FAIL_ID,
           VM_RET, VM_POP, VM_CALL_EXTERNAL, SUCCESS_ID, VM_RET]
          (register_external_call FAIL_ID cb_fail
            (register_external_call SUCCESS_ID cb_success VM.fresh)))
      = RunResult.returned s ∧
      s.fired = [cb_success] ∧ s.fired.count cb_success = 1 ∧ cb_fail ∉ s.fired ∧
      s.is_running = false ∧ s.integrity_failed = false ∧ s.stack = [] := by
  refine ⟨{ VM.fresh with
              bytecode := [VM_PUSH, 7, VM_PUSH, 7, VM_CMP, VM_JUMP_IF_EQUAL, 10,
                           VM_CALL_EXTERNAL, FAIL_ID, VM_RET, VM_POP, VM_CALL_EXTERNAL,
                           SUCCESS_ID, VM_RET],
              external_calls := [(FAIL_ID, cb_fail), (SUCCESS_ID, cb_success)],
              instruction_pointer := 14,
              fired := [cb_success] }, ?_, rfl, by simp, by simpa using hcb, rfl, rfl, rfl⟩
  have hid2 : ¬ SUCCESS_ID = FAIL_ID := fun h => hid h.symm
  have hreg : register_external_call FAIL_ID cb_fail
      (register_external_call SUCCESS_ID cb_success VM.fresh)
        = { VM.fresh with external_calls := [(FAIL_ID, cb_fail), (SUCCESS_ID, cb_success)] } := by
    simp [register_external_call, VM.fresh, hid2]
  have hlook : List.lookup SUCCESS_ID [(FAIL_ID, cb_fail), (SUCCESS_ID, cb_success)]
      = some cb_success := by
    have hbeq : (SUCCESS_ID == FAIL_ID) = false := by simpa using hid2
    simp [List.lookup, hbeq]
  rw [hreg]
  simp [run, run_loop, load_bytecode, VM.fresh, fetch_execute, read,
    lookup_push, lookup_cmp, lookup_jump_if_equal, lookup_pop, lookup_call_external, lookup_ret,
    handle_push, handle_cmp, handle_jump_if_equal, handle_pop, handle_call_external, handle_ret,
    hlook]

/-- C10, at the identifiers 77 and 88 and the callback labels 1 and 2. -/
theorem end_to_end_scenario_witness :
    (77 : Int) ≠ 88 ∧ (1 : Nat) ≠ 2 ∧
    ∃ s, run (fun _ => 0) (0 + 8)
        (load_bytecode
          [VM_PUSH, 7, VM_PUSH, 7, VM_CMP, VM_JUMP_IF_EQUAL, 10, VM_CALL_EXTERNAL, 77,
           VM_RET, VM_POP, VM_CALL_EXTERNAL, 88, VM_RET]
          (register_external_call 77 1 (register_external_call 88 2 VM.fresh)))
      = RunResult.returned s ∧
      s.fired = [2] ∧ s.fired.count 2 = 1 ∧ 1 ∉ s.fired ∧
      s.is_running = false ∧ s.integrity_failed = false ∧ s.stack = [] :=
  ⟨by decide, by decide,
    end_to_end_scenario 77 88 1 2 (by decide) (by decide) (fun _ => 0) 0⟩

/-! ## C11: an unregistered identifier -/

/-- C11: in a state whose next opcode is `call_external` with an operand `id` inside the
program and not a key of the registry, the cycle is defined, fires no callback and
changes only the instruction pointer, which moves past the operand; `get_result` is
what it was. The same holds of the handler alone, entered after the fetch. -/
theorem call_external_unregistered (d : Nat) (s : VM) (id : Int)
    (hop : read s.bytecode s.instruction_pointer = some VM_CALL_EXTERNAL)
    (hid : read s.bytecode (s.instruction_pointer + 1) = some id)
    (hun : s.external_calls.lookup id = none) :
    fetch_execute d s = some { s with instruction_pointer := s.instruction_pointer + 2 } ∧
    handle_call_external { s with instruction_pointer := s.instruction_pointer + 1 }
      = some { s with instruction_pointer := s.instruction_pointer + 2 } ∧
    get_result { s with instruction_pointer := s.instruction_pointer + 2 } = get_result s := by
  have e2 : s.instruction_pointer + 1 + 1 = s.instruction_pointer + 2 := by ring
  refine ⟨?_, ?_, rfl⟩
  · simp [fetch_execute, hop, lookup_call_external, handle_call_external, hid, hun, e2]
  · simp [handle_call_external, hid, hun, e2]

/-- C11, at a concrete state: identifier 5 with only identifier 7 registered. -/
theorem call_external_unregistered_witness :
    fetch_execute 0
        { register_external_call 7 1 (load_bytecode [4, 5, 3] VM.fresh) with stack := [8] }
      = some { register_external_call 7 1 (load_bytecode [4, 5, 3] VM.fresh) with
                 stack := [8], instruction_pointer := 0 + 2 } ∧
    handle_call_external
        { register_external_call 7 1 (load_bytecode [4, 5, 3] VM.fresh) with
            stack := [8], instruction_pointer := 0 + 1 }
      = some { register_external_call 7 1 (load_bytecode [4, 5, 3] VM.fresh) with
                 stack := [8], instruction_pointer := 0 + 2 } ∧
    get_result
        { register_external_call 7 1 (load_bytecode [4, 5, 3] VM.fresh) with
            stack := [8], instruction_pointer := 0 + 2 }
      = get_result
          { register_external_call 7 1 (load_bytecode [4, 5, 3] VM.fresh) with stack := [8] } :=
  call_external_unregistered 0
    { register_external_call 7 1 (load_bytecode [4, 5, 3] VM.fresh) with stack := [8] } 5
    rfl rfl rfl

/-! ## The handler table written out -/

theorem opcode_handlers_eq :
    opcode_handlers =
      [(41, fun _ => handle_rotl), (24, fun _ => handle_checksum_push),
       (7, fun _ => handle_checksum_check), (40, handle_timing_check),
       (23, fun _ => handle_mutate), (6, fun _ => handle_xor),
       (39, fun _ => handle_push_junk), (22, fun _ => handle_sub),
       (5, fun _ => handle_jump_if_equal), (38, fun _ => handle_cmp),
       (21, fun _ => handle_call_external), (4, fun _ => handle_ret),
       (37, fun _ => handle_add), (20, fun _ => handle_pop), (3, fun _ => handle_push)] := rfl

theorem lookup_eq_none_of_not_key (k : Int)
    (h : k ∉ [3, 20, 37, 4, 21, 38, 5, 22, 39, 6, 23, 40, 7, 24, 41]) :
    opcode_handlers.lookup k = none := by
  simp only [List.mem_cons, List.mem_singleton, not_or, List.not_mem_nil, not_false_eq_true, and_true] at h
  obtain ⟨h1, h2, h3, h4, h5, h6, h7, h8, h9, h10, h11, h12, h13, h14, h15⟩ := h
  rw [opcode_handlers_eq]
  simp [List.lookup, beq_eq_false_iff_ne.mpr h1, beq_eq_false_iff_ne.mpr h2,
    beq_eq_false_iff_ne.mpr h3, beq_eq_false_iff_ne.mpr h4, beq_eq_false_iff_ne.mpr h5,
    beq_eq_false_iff_ne.mpr h6, beq_eq_false_iff_ne.mpr h7, beq_eq_false_iff_ne.mpr h8,
    beq_eq_false_iff_ne.mpr h9, beq_eq_false_iff_ne.mpr h10, beq_eq_false_iff_ne.mpr h11,
    beq_eq_false_iff_ne.mpr h12, beq_eq_false_iff_ne.mpr h13, beq_eq_false_iff_ne.mpr h14,
    beq_eq_false_iff_ne.mpr h15]

theorem lookup_some_mem {β : Type} (k : Int) (b : β) :
    ∀ l : List (Int × β), l.lookup k = some b → (k, b) ∈ l
  | [], h => by simp [List.lookup] at h
  | (a, c) :: l, h => by
    by_cases hk : k = a
    · subst hk
      simp [List.lookup] at h
      simp [h]
    · have hb : (k == a) = false := by simpa using hk
      simp [List.lookup, hb] at h
      exact List.mem_cons_of_mem _ (lookup_some_mem k b l h)

theorem handler_cases (k : Int) (h : Handler) (hl : opcode_handlers.lookup k = some h) :
    (k = 41 ∧ h = fun _ => handle_rotl) ∨ (k = 24 ∧ h = fun _ => handle_checksum_push) ∨
    (k = 7 ∧ h = fun _ => handle_checksum_check) ∨ (k = 40 ∧ h = handle_timing_check) ∨
    (k = 23 ∧ h = fun _ => handle_mutate) ∨ (k = 6 ∧ h = fun _ => handle_xor) ∨
    (k = 39 ∧ h = fun _ => handle_push_junk) ∨ (k = 22 ∧ h = fun _ => handle_sub) ∨
    (k = 5 ∧ h = fun _ => handle_jump_if_equal) ∨ (k = 38 ∧ h = fun _ => handle_cmp) ∨
    (k = 21 ∧ h = fun _ => handle_call_external) ∨ (k = 4 ∧ h = fun _ => handle_ret) ∨
    (k = 37 ∧ h = fun _ => handle_add) ∨ (k = 20 ∧ h = fun _ => handle_pop) ∨
    (k = 3 ∧ h = fun _ => handle_push) := by
  have hm := lookup_some_mem k h _ hl
  rw [opcode_handlers_eq] at hm
  simpa only [List.mem_cons, Prod.mk.injEq, List.mem_nil_iff, List.mem_singleton, or_false] using hm

theorem handlers_keep_flag (k : Int) (h : Handler) (d : Nat) (s s1 : VM)
    (hl : opcode_handlers.lookup k = some h) (hs : h d s = some s1)
    (hf : s.integrity_failed = true) : s1.integrity_failed = true := by
  rcases handler_cases k h hl with
    hc | hc | hc | hc | hc | hc | hc | hc | hc | hc | hc | hc | hc | hc | hc
  all_goals
    obtain ⟨-, hh⟩ := hc
    subst hh
    simp only [handle_rotl, handle_checksum_push, handle_checksum_check, handle_timing_check,
      handle_mutate, handle_xor, handle_push_junk, handle_sub, handle_jump_if_equal, handle_cmp,
      handle_call_external, handle_ret, handle_add, handle_pop, handle_push] at hs
    repeat' split at hs
    all_goals (cases hs <;> first | exact hf | rfl)

/-! ## C13: the Integrity Flag is never cleared -/

theorem fetch_execute_keeps_flag (d : Nat) (s s1 : VM) (hs : fetch_execute d s = some s1)
    (hf : s.integrity_failed = true) : s1.integrity_failed = true := by
  unfold fetch_execute at hs
  split at hs
  · cases hs
  · simp only at hs
    split at hs
    · rename_i h hl
      exact handlers_keep_flag _ h d _ s1 hl hs hf
    · cases hs
      exact hf

theorem run_loop_keeps_flag (clock : Nat → Nat) (fuel n : Nat) (s s1 : VM)
    (hs : run_loop clock fuel n s = RunResult.returned s1)
    (hf : s.integrity_failed = true) : s1.integrity_failed = true := by
  cases fuel with
  | zero => simp [run_loop] at hs
  | succ fuel =>
    by_cases hr : s.is_running = false
    · simp [run_loop, hr] at hs
      subst hs
      exact hf
    · simp [run_loop, hr, hf] at hs
      subst hs
      rfl

/-- C13: the Integrity Flag is false in a fresh VM, and from a state in which it is true
it is still true after `load_bytecode`, after `register_external_call`, after every
handler of the table, after `handle_unknown`, after a whole cycle, and in the state in
which `run` returns (`get_result` returns a value and has no state to change). -/
theorem integrity_flag_latch :
    VM.fresh.integrity_failed = false ∧
    (∀ (s : VM) (code : List Int), s.integrity_failed = true →
      (load_bytecode code s).integrity_failed = true) ∧
    (∀ (s : VM) (id : Int) (func : Nat), s.integrity_failed = true →
      (register_external_call id func s).integrity_failed = true) ∧
    (∀ (k : Int) (h : Handler) (d : Nat) (s s1 : VM),
      opcode_handlers.lookup k = some h → h d s = some s1 →
      s.integrity_failed = true → s1.integrity_failed = true) ∧
    (∀ (s s1 : VM), handle_unknown s = some s1 →
      s.integrity_failed = true → s1.integrity_failed = true) ∧
    (∀ (d : Nat) (s s1 : VM), fetch_execute d s = some s1 →
      s.integrity_failed = true → s1.integrity_failed = true) ∧
    (∀ (clock : Nat → Nat) (fuel : Nat) (s s1 : VM),
      run clock fuel s = RunResult.returned s1 →
      s.integrity_failed = true → s1.integrity_failed = true) := by
  refine ⟨rfl, fun s code hf => hf, fun s id func hf => hf, handlers_keep_flag, ?_,
    fetch_execute_keeps_flag, ?_⟩
  · intro s s1 hs hf
    cases hs
    exact hf
  · intro clock fuel s s1 hs hf
    exact run_loop_keeps_flag clock fuel 0 _ s1 hs hf

/-! ## C14: exact dispatch -/

/-- C14: the opcodes are `0..14`, their keys `(k*17+3)%50` are the fifteen pairwise
distinct values listed, the table maps the key of each opcode to that opcode's handler,
a fetched word runs the handler the table holds for its key, and a fetched word whose
key is none of the fifteen runs `handle_unknown`: the Running Flag becomes false, one
line is reported, the pointer is past the word, and the Integrity Flag, the stack and
the program are unchanged. -/
theorem dispatch_exact :
    [VM_PUSH, VM_POP, VM_ADD, VM_RET, VM_CALL_EXTERNAL, VM_CMP, VM_JUMP_IF_EQUAL, VM_SUB,
      VM_PUSH_JUNK, VM_XOR, VM_MUTATE, VM_TIMING_CHECK, VM_CHECKSUM_CHECK, VM_CHECKSUM_PUSH,
      VM_ROTL] = [0, 1, 2, 3, 4, 5, 6, 7, 8, 9, 10, 11, 12, 13, 14] ∧
    List.map dispatch_key [0, 1, 2, 3, 4, 5, 6, 7, 8, 9, 10, 11, 12, 13, 14]
      = [3, 20, 37, 4, 21, 38, 5, 22, 39, 6, 23, 40, 7, 24, 41] ∧
    (List.map dispatch_key [0, 1, 2, 3, 4, 5, 6, 7, 8, 9, 10, 11, 12, 13, 14]).Nodup ∧
    (opcode_handlers.lookup (dispatch_key VM_PUSH) = some (fun _ => handle_push) ∧
     opcode_handlers.lookup (dispatch_key VM_POP) = some (fun _ => handle_pop) ∧
     opcode_handlers.lookup (dispatch_key VM_ADD) = some (fun _ => handle_add) ∧
     opcode_handlers.lookup (dispatch_key VM_RET) = some (fun _ => handle_ret) ∧
     opcode_handlers.lookup (dispatch_key VM_CALL_EXTERNAL)
       = some (fun _ => handle_call_external) ∧
     opcode_handlers.lookup (dispatch_key VM_CMP) = some (fun _ => handle_cmp) ∧
     opcode_handlers.lookup (dispatch_key VM_JUMP_IF_EQUAL)
       = some (fun _ => handle_jump_if_equal) ∧
     opcode_handlers.lookup (dispatch_key VM_SUB) = some (fun _ => handle_sub) ∧
     opcode_handlers.lookup (dispatch_key VM_PUSH_JUNK) = some (fun _ => handle_push_junk) ∧
     opcode_handlers.lookup (dispatch_key VM_XOR) = some (fun _ => handle_xor) ∧
     opcode_handlers.lookup (dispatch_key VM_MUTATE) = some (fun _ => handle_mutate) ∧
     opcode_handlers.lookup (dispatch_key VM_TIMING_CHECK) = some handle_timing_check ∧
     opcode_handlers.lookup (dispatch_key VM_CHECKSUM_CHECK)
       = some (fun _ => handle_checksum_check) ∧
     opcode_handlers.lookup (dispatch_key VM_CHECKSUM_PUSH)
       = some (fun _ => handle_checksum_push) ∧
     opcode_handlers.lookup (dispatch_key VM_ROTL) = some (fun _ => handle_rotl)) ∧
    (∀ (d : Nat) (s : VM) (w : Int) (h : Handler),
      read s.bytecode s.instruction_pointer = some w →
      opcode_handlers.lookup (dispatch_key w) = some h →
      fetch_execute d s = h d { s with instruction_pointer := s.instruction_pointer + 1 }) ∧
    (∀ (d : Nat) (s : VM) (w : Int),
      read s.bytecode s.instruction_pointer = some w →
      dispatch_key w ∉ List.map dispatch_key [0, 1, 2, 3, 4, 5, 6, 7, 8, 9, 10, 11, 12, 13, 14] →
      fetch_execute d s
        = some { s with instruction_pointer := s.instruction_pointer + 1,
                        output := s.output ++ [Msg.unknown_opcode],
                        is_running := false }) := by
  refine ⟨rfl, rfl, by decide, ⟨rfl, rfl, rfl, rfl, rfl, rfl, rfl, rfl, rfl, rfl, rfl, rfl, rfl,
    rfl, rfl⟩, ?_, ?_⟩
  · intro d s w h hr hl
    simp [fetch_execute, hr, hl]
  · intro d s w hr hk
    have hkeys : List.map dispatch_key [0, 1, 2, 3, 4, 5, 6, 7, 8, 9, 10, 11, 12, 13, 14]
        = [3, 20, 37, 4, 21, 38, 5, 22, 39, 6, 23, 40, 7, 24, 41] := rfl
    rw [hkeys] at hk
    simp [fetch_execute, hr, lookup_eq_none_of_not_key _ hk, handle_unknown]

/-! ## C16: the program-shape check of `add` -/

/-- C16: on a non-empty program whose word at index 0 is `w0` and a stack `b :: a :: rest`,
`add` is defined, replaces `a` and `b` by `a + b` in 32-bit two's complement, and sets
the Integrity Flag exactly when `w0` is neither `VM_PUSH` nor `VM_PUSH_JUNK`, leaving it
as it was otherwise. -/
theorem handle_add_effect (s : VM) (w0 a b : Int) (tl rest : List Int)
    (hcode : s.bytecode = w0 :: tl) (hstack : s.stack = b :: a :: rest) :
    handle_add s
      = some { s with
                 integrity_failed :=
                   if w0 ≠ VM_PUSH ∧ w0 ≠ VM_PUSH_JUNK then true else s.integrity_failed,
                 stack := wrap32 (a + b) :: rest } := by
  obtain ⟨code, stack, ip, ext, flag, running, fired, output⟩ := s
  simp only at hcode hstack
  subst hcode hstack
  by_cases h : w0 ≠ VM_PUSH_JUNK ∧ w0 ≠ VM_PUSH
  · have h2 : w0 ≠ VM_PUSH ∧ w0 ≠ VM_PUSH_JUNK := ⟨h.2, h.1⟩
    simp [handle_add, h, h2]
  · have h2 : ¬ (w0 ≠ VM_PUSH ∧ w0 ≠ VM_PUSH_JUNK) := fun h3 => h ⟨h3.2, h3.1⟩
    simp [handle_add, h, h2]

/-- C16, at concrete states: index 0 holding `add` itself (flag set), `push` and
`push_junk` (flag left false). -/
theorem handle_add_effect_witness :
    handle_add { load_bytecode [2, 3] VM.fresh with stack := [4, 5, 6] }
      = some { load_bytecode [2, 3] VM.fresh with stack := [9, 6], integrity_failed := true } ∧
    handle_add { load_bytecode [0, 3] VM.fresh with stack := [4, 5, 6] }
      = some { load_bytecode [0, 3] VM.fresh with stack := [9, 6] } ∧
    handle_add { load_bytecode [8, 3] VM.fresh with stack := [4, 5, 6] }
      = some { load_bytecode [8, 3] VM.fresh with stack := [9, 6] } :=
  ⟨handle_add_effect { load_bytecode [2, 3] VM.fresh with stack := [4, 5, 6] }
      2 5 4 [3] [6] rfl rfl,
   handle_add_effect { load_bytecode [0, 3] VM.fresh with stack := [4, 5, 6] }
      0 5 4 [3] [6] rfl rfl,
   handle_add_effect { load_bytecode [8, 3] VM.fresh with stack := [4, 5, 6] }
      8 5 4 [3] [6] rfl rfl⟩

/-! ## C19: words that alias a defined opcode -/

/-- C19: for each defined opcode `k` in `0..14` the word `k + 50` has the key of `k`, the
table holds a handler for that key, and a cycle that fetches `k + 50` runs it; the
program `[50, 9, ret]` pushes 9 and returns exactly as `[push, 9, ret]` does. -/
theorem dispatch_aliases (k : Int) (h0 : 0 ≤ k) (h14 : k ≤ 14) :
    dispatch_key (k + 50) = dispatch_key k ∧
    (∃ h, opcode_handlers.lookup (dispatch_key k) = some h ∧
      ∀ (d : Nat) (s : VM), read s.bytecode s.instruction_pointer = some (k + 50) →
        fetch_execute d s = h d { s with instruction_pointer := s.instruction_pointer + 1 }) ∧
    (∀ (clock : Nat → Nat) (fuel : Nat),
      run clock (fuel + 3) (load_bytecode [50, 9, VM_RET] VM.fresh)
        = RunResult.returned
            { VM.fresh with bytecode := [50, 9, VM_RET], stack := [9], instruction_pointer := 3 } ∧
      run clock (fuel + 3) (load_bytecode [VM_PUSH, 9, VM_RET] VM.fresh)
        = RunResult.returned
            { VM.fresh with bytecode := [VM_PUSH, 9, VM_RET], stack := [9],
                            instruction_pointer := 3 }) := by
  have hkey : dispatch_key (k + 50) = dispatch_key k := by
    interval_cases k <;> rfl
  have hlook : ∃ h, opcode_handlers.lookup (dispatch_key k) = some h := by
    interval_cases k <;> exact ⟨_, rfl⟩
  obtain ⟨h, hh⟩ := hlook
  refine ⟨hkey, ⟨h, hh, ?_⟩, ?_⟩
  · intro d s hr
    simp [fetch_execute, hr, hkey, hh]
  · intro clock fuel
    have h50 : opcode_handlers.lookup (dispatch_key 50) = some (fun _ => handle_push) := rfl
    constructor
    · simp [run, run_loop, load_bytecode, VM.fresh, fetch_execute, read, h50, lookup_ret,
        handle_push, handle_ret]
    · simp [run, run_loop, load_bytecode, VM.fresh, fetch_execute, read, lookup_push, lookup_ret,
        handle_push, handle_ret]

/-- C19, at `k = 14`: the word 64 runs the handler of `rotl`. -/
theorem dispatch_aliases_witness :
    (0 : Int) ≤ 14 ∧ (14 : Int) ≤ 14 ∧ dispatch_key (14 + 50) = dispatch_key 14 :=
  ⟨by decide, by decide, (dispatch_aliases 14 (by decide) (by decide)).1⟩

/-! ## Counted turns of the loop and the loop of `run` -/

theorem fetch_execute_some_bounds {d : Nat} {s s1 : VM} (h : fetch_execute d s = some s1) :
    0 ≤ s.instruction_pointer ∧ s.instruction_pointer < s.bytecode.length := by
  unfold fetch_execute at h
  split at h
  · cases h
  · rename_i w hw
    exact read_some_bounds hw

theorem cycles_step (clock : Nat → Nat) (k n : Nat) (s s1 : VM)
    (hrun : s.is_running = true) (hint : s.integrity_failed = false)
    (hstep : fetch_execute (clock n) s = some s1) :
    cycles clock (k + 1) n s = cycles clock k (n + 1) s1 := by
  have hb := fetch_execute_some_bounds hstep
  have hguard : ¬ (s.instruction_pointer < 0 ∨ (s.bytecode.length : Int) ≤ s.instruction_pointer) := by
    omega
  simp [cycles, hrun, hint, hguard, hstep]

theorem cycles_succ_some {clock : Nat → Nat} {k n : Nat} {s sk : VM}
    (h : cycles clock (k + 1) n s = some sk) :
    s.is_running = true ∧ s.integrity_failed = false ∧
    0 ≤ s.instruction_pointer ∧ s.instruction_pointer < s.bytecode.length ∧
    ∃ s1, fetch_execute (clock n) s = some s1 ∧ cycles clock k (n + 1) s1 = some sk := by
  unfold cycles at h
  split at h
  · cases h
  · split at h
    · cases h
    · split at h
      · cases h
      · rename_i h1 h2 h3
        split at h
        · cases h
        · rename_i s1 hs1
          refine ⟨by simpa using h1, by simpa using h2, by omega, by omega, s1, hs1, h⟩

theorem cycles_add (clock : Nat → Nat) (j m : Nat) :
    ∀ (n : Nat) (s : VM),
      cycles clock (j + m) n s = (cycles clock j n s).bind (cycles clock m (n + j)) := by
  induction j with
  | zero =>
    intro n s
    simp [cycles]
  | succ j ih =>
    intro n s
    have e : j + 1 + m = (j + m) + 1 := by omega
    rw [e]
    by_cases hr : s.is_running = false
    · simp [cycles, hr]
    by_cases hi : s.integrity_failed = true
    · simp [cycles, hr, hi]
    by_cases hg : s.instruction_pointer < 0 ∨ (s.bytecode.length : Int) ≤ s.instruction_pointer
    · simp [cycles, hr, hi, hg]
    cases hf : fetch_execute (clock n) s with
    | none => simp [cycles, hr, hi, hg, hf]
    | some s1 =>
      have e2 : n + (j + 1) = n + 1 + j := by omega
      simp [cycles, hr, hi, hg, hf, ih (n + 1) s1, e2]

theorem cycles_flag_false_before (clock : Nat → Nat) (k n : Nat) (s sk : VM)
    (hk : cycles clock k n s = some sk) (hf : sk.integrity_failed = false)
    (j : Nat) (sj : VM) (hj : j ≤ k) (hsj : cycles clock j n s = some sj) :
    sj.integrity_failed = false := by
  obtain ⟨m, rfl⟩ : ∃ m, k = j + m := ⟨k - j, by omega⟩
  rw [cycles_add, hsj] at hk
  cases m with
  | zero =>
    simp [cycles] at hk
    rw [hk]
    exact hf
  | succ m =>
    exact (cycles_succ_some hk).2.1

theorem run_loop_of_cycles (clock : Nat → Nat) (fuel : Nat) :
    ∀ (k n : Nat) (s sk : VM), cycles clock k n s = some sk →
      run_loop clock (fuel + k) n s = run_loop clock fuel (n + k) sk := by
  intro k
  induction k with
  | zero =>
    intro n s sk h
    simp [cycles] at h
    simp [h]
  | succ k ih =>
    intro n s sk h
    obtain ⟨hr, hi, h0, h1, s1, hs1, hrest⟩ := cycles_succ_some h
    have hguard : ¬ (s.instruction_pointer < 0 ∨ (s.bytecode.length : Int) ≤ s.instruction_pointer) := by
      omega
    have e : fuel + (k + 1) = (fuel + k) + 1 := by omega
    have e2 : n + (k + 1) = n + 1 + k := by omega
    rw [e, e2, ← ih (n + 1) s1 sk hrest]
    simp [run_loop, hr, hi, hguard, hs1]

theorem fetch_execute_timing_check (d : Nat) (s : VM)
    (hop : read s.bytecode s.instruction_pointer = some VM_TIMING_CHECK) :
    fetch_execute d s
      = handle_timing_check d { s with instruction_pointer := s.instruction_pointer + 1 } := by
  simp [fetch_execute, hop, lookup_timing_check]

theorem fetch_execute_call_external_fire (d : Nat) (s : VM) (id : Int) (func : Nat)
    (hop : read s.bytecode s.instruction_pointer = some VM_CALL_EXTERNAL)
    (hid : read s.bytecode (s.instruction_pointer + 1) = some id)
    (hl : s.external_calls.lookup id = some func) :
    fetch_execute d s
      = some { s with instruction_pointer := s.instruction_pointer + 2,
                      fired := s.fired ++ [func] } := by
  have e2 : s.instruction_pointer + 1 + 1 = s.instruction_pointer + 2 := by ring
  simp [fetch_execute, hop, lookup_call_external, handle_call_external, hid, hl, e2]

theorem run_loop_not_running (clock : Nat → Nat) (fuel n : Nat) (s : VM)
    (hrun : s.is_running = false) :
    run_loop clock (fuel + 1) n s = RunResult.returned s := by
  simp [run_loop, hrun]

/-! ## C12: where `run` starts -/

/-- C12, as stated, fails: `run` on `[push, 5, ret]` returns with the pointer at 3; after
`load_bytecode` of `[push, 1, ret, push, 2, ret]` the next `run` starts at index 3 and
pushes 2, which is not what it does when the pointer is first set to 0. -/
theorem run_resumes_at_old_pointer :
    run (fun _ => 0) 3 (load_bytecode [VM_PUSH, 5, VM_RET] VM.fresh)
      = RunResult.returned
          { VM.fresh with bytecode := [VM_PUSH, 5, VM_RET], stack := [5],
                          instruction_pointer := 3 } ∧
    run (fun _ => 0) 3
        (load_bytecode [VM_PUSH, 1, VM_RET, VM_PUSH, 2, VM_RET]
          { VM.fresh with bytecode := [VM_PUSH, 5, VM_RET], stack := [5],
                          instruction_pointer := 3 })
      = RunResult.returned
          { VM.fresh with bytecode := [VM_PUSH, 1, VM_RET, VM_PUSH, 2, VM_RET], stack := [2, 5],
                          instruction_pointer := 6 } ∧
    run (fun _ => 0) 3
        (load_bytecode [VM_PUSH, 1, VM_RET, VM_PUSH, 2, VM_RET]
          { VM.fresh with bytecode := [VM_PUSH, 5, VM_RET], stack := [5],
                          instruction_pointer := 3 })
      ≠ run (fun _ => 0) 3
          { load_bytecode [VM_PUSH, 1, VM_RET, VM_PUSH, 2, VM_RET]
              { VM.fresh with bytecode := [VM_PUSH, 5, VM_RET], stack := [5],
                              instruction_pointer := 3 } with
            instruction_pointer := 0 } := by
  refine ⟨by decide, by decide, by decide⟩

/-- C12, amended: `run` leaves the instruction pointer as it finds it. With the Integrity
Flag false and a word `w` at the current pointer, the first cycle of `run` dispatches on
`w`. On a fresh VM the pointer is 0 whatever program is loaded, and `load_bytecode`
does not change the pointer. -/
theorem run_starts_at_current_pointer (clock : Nat → Nat) (fuel : Nat) (s : VM) (w : Int)
    (hint : s.integrity_failed = false)
    (hop : read s.bytecode s.instruction_pointer = some w) :
    run clock (fuel + 1) s =
      (match
        (match opcode_handlers.lookup (dispatch_key w) with
         | some h => h (clock 0)
            { s with is_running := true, instruction_pointer := s.instruction_pointer + 1 }
         | none => handle_unknown
            { s with is_running := true, instruction_pointer := s.instruction_pointer + 1 }) with
       | none => RunResult.undefined
       | some s1 => run_loop clock fuel 1 s1) ∧
    (∀ code : List Int, (load_bytecode code VM.fresh).instruction_pointer = 0) ∧
    (∀ code : List Int, (load_bytecode code s).instruction_pointer = s.instruction_pointer) := by
  refine ⟨?_, fun _ => rfl, fun _ => rfl⟩
  have hb := read_some_bounds hop
  have hguard : ¬ (s.instruction_pointer < 0 ∨ (s.bytecode.length : Int) ≤ s.instruction_pointer) := by
    omega
  simp [run, run_loop, hint, hguard, fetch_execute, hop]

/-- C12 amended, at the state the counterexample reaches: pointer 3, word `push`. -/
theorem run_starts_at_current_pointer_witness :
    run (fun _ => 0) (2 + 1)
        { VM.fresh with bytecode := [0, 1, 3, 0, 2, 3], stack := [5], instruction_pointer := 3 } =
      (match
        (match opcode_handlers.lookup (dispatch_key 0) with
         | some h => h 0
            { ({ VM.fresh with bytecode := [0, 1, 3, 0, 2, 3], stack := [5],
                               instruction_pointer := 3 } : VM) with
              is_running := true, instruction_pointer := 3 + 1 }
         | none => handle_unknown
            { ({ VM.fresh with bytecode := [0, 1, 3, 0, 2, 3], stack := [5],
                               instruction_pointer := 3 } : VM) with
              is_running := true, instruction_pointer := 3 + 1 }) with
       | none => RunResult.undefined
       | some s1 => run_loop (fun _ => 0) 2 1 s1) ∧
    (∀ code : List Int, (load_bytecode code VM.fresh).instruction_pointer = 0) ∧
    (∀ code : List Int,
      (load_bytecode code
        { VM.fresh with bytecode := [0, 1, 3, 0, 2, 3], stack := [5],
                        instruction_pointer := 3 }).instruction_pointer = 3) :=
  run_starts_at_current_pointer (fun _ => 0) 2
    { VM.fresh with bytecode := [0, 1, 3, 0, 2, 3], stack := [5], instruction_pointer := 3 } 0
    rfl rfl

/-! ## C15: the timing threshold -/

/-- C15, as stated, fails: at an elapsed time of 2.5 s, which exceeds 2 s, `timing_check`
leaves the Integrity Flag false. -/
theorem timing_check_two_and_a_half_seconds :
    ¬ (∀ (d : Nat) (s : VM), 2000000000 < d →
        ∃ s1, handle_timing_check d s = some s1 ∧ s1.integrity_failed = true) := by
  intro h
  obtain ⟨s1, h1, h2⟩ := h 2500000000 VM.fresh (by decide)
  have h3 : handle_timing_check 2500000000 VM.fresh = some VM.fresh := by decide
  rw [h3] at h1
  cases h1
  cases h2

/-- C15, amended: with the elapsed time `d` in nanoseconds, `timing_check` sets the
Integrity Flag (and reports) when `d` is at least 3 s, that is when `d` truncated to
whole seconds exceeds 2, and changes nothing when `d` is below 3 s; the stack, the
program and the instruction pointer are unchanged in both cases. -/
theorem timing_check_effect (d : Nat) (s : VM) :
    (3000000000 ≤ d →
      handle_timing_check d s
        = some { s with output := s.output ++ [Msg.timing_anomaly], integrity_failed := true }) ∧
    (d < 3000000000 → handle_timing_check d s = some s) := by
  constructor
  · intro h
    have h2 : d / 1000000000 > 2 := by omega
    simp [handle_timing_check, h2]
  · intro h
    have h2 : ¬ d / 1000000000 > 2 := by omega
    simp [handle_timing_check, h2]

/-! ## C17: the fetch stays inside the program -/

/-- C17, as stated, fails: after the failed check of `[checksum_check, 0, 1, 99]` the
pointer equals the program length at the top of the next cycle, and `run` returns
through the integrity guard with the Running Flag still true. -/
theorem out_of_range_with_flag_set :
    ∃ s s1, fetch_execute 0 { load_bytecode [VM_CHECKSUM_CHECK, 0, 1, 99] VM.fresh with
                                is_running := true } = some s ∧
      s.is_running = true ∧ (s.bytecode.length : Int) ≤ s.instruction_pointer ∧
      run_loop (fun _ => 0) 1 1 s = RunResult.returned s1 ∧ s1.is_running = true ∧
      run (fun _ => 0) 2 (load_bytecode [VM_CHECKSUM_CHECK, 0, 1, 99] VM.fresh)
        = RunResult.returned s1 := by
  refine ⟨{ VM.fresh with bytecode := [VM_CHECKSUM_CHECK, 0, 1, 99], instruction_pointer := 4,
                          is_running := true, integrity_failed := true,
                          output := [Msg.checksum_mismatch] },
    { VM.fresh with bytecode := [VM_CHECKSUM_CHECK, 0, 1, 99], instruction_pointer := 4,
                    is_running := true, integrity_failed := true,
                    output := [Msg.checksum_mismatch, Msg.integrity_halt] },
    by decide, rfl, by decide, by decide, rfl, by decide⟩

/-- C17, amended: at the top of a cycle whose instruction pointer is negative or at least
the program length, `run` returns without a fetch: with the Integrity Flag false it
halts normally (Running Flag false, nothing else changed), with the flag true it returns
through the integrity guard, the Running Flag left true. A fetch at such a pointer would
be undefined, and every fetch that happens reads at an index from 0 below the length;
a pointer made negative by `jump_if_equal` ends the run in the same way. -/
theorem run_loop_fetch_in_bounds (clock : Nat → Nat) (fuel n : Nat) (s : VM)
    (hrun : s.is_running = true)
    (hbad : s.instruction_pointer < 0 ∨ (s.bytecode.length : Int) ≤ s.instruction_pointer) :
    (s.integrity_failed = false →
      run_loop clock (fuel + 1) n s = RunResult.returned { s with is_running := false }) ∧
    (s.integrity_failed = true →
      run_loop clock (fuel + 1) n s
        = RunResult.returned { s with output := s.output ++ [Msg.integrity_halt] }) ∧
    (∀ d, fetch_execute d s = none) ∧
    (∀ (t : VM) (d : Nat) (t1 : VM), fetch_execute d t = some t1 →
      0 ≤ t.instruction_pointer ∧ t.instruction_pointer < t.bytecode.length) ∧
    (∀ (clock2 : Nat → Nat) (fuel2 : Nat),
      run clock2 (fuel2 + 3) (load_bytecode [VM_PUSH, 1, VM_JUMP_IF_EQUAL, -1] VM.fresh)
        = RunResult.returned
            { VM.fresh with bytecode := [VM_PUSH, 1, VM_JUMP_IF_EQUAL, -1],
                            instruction_pointer := -1 }) := by
  refine ⟨?_, ?_, ?_, fun t d t1 h => fetch_execute_some_bounds h, ?_⟩
  · intro hi
    simp [run_loop, hrun, hi, hbad]
  · intro hi
    exact run_loop_integrity clock fuel n s hrun hi
  · intro d
    cases h : fetch_execute d s with
    | none => rfl
    | some s1 =>
      have := fetch_execute_some_bounds h
      omega
  · intro clock2 fuel2
    simp [run, run_loop, load_bytecode, VM.fresh, fetch_execute, read, lookup_push,
      lookup_jump_if_equal, handle_push, handle_jump_if_equal]

/-- C17 amended, at the state of the counterexample: flag set, pointer at the length. -/
theorem run_loop_fetch_in_bounds_witness :
    ((4 : Int) < 0 ∨ (([12, 0, 1, 99] : List Int).length : Int) ≤ 4) ∧
    (run_loop (fun _ => 0) (0 + 1) 1
        { VM.fresh with bytecode := [12, 0, 1, 99], instruction_pointer := 4,
                        is_running := true, integrity_failed := true }
      = RunResult.returned
          { VM.fresh with bytecode := [12, 0, 1, 99], instruction_pointer := 4,
                          is_running := true, integrity_failed := true,
                          output := [] ++ [Msg.integrity_halt] }) :=
  ⟨by decide,
    (run_loop_fetch_in_bounds (fun _ => 0) 0 1
      { VM.fresh with bytecode := [12, 0, 1, 99], instruction_pointer := 4,
                      is_running := true, integrity_failed := true }
      rfl (by decide)).2.1 rfl⟩

/-! ## C18: the authentication program of `main` -/

theorem main_bytecode_eq (U s f : Int) :
    main_bytecode U s f =
      [0, U, 10, 0, 8, 12, 12, 30, 43, 10, 5, 8, 13, 12, 30, 10, 12, 8, 13, 19, 15, 10, 18, 8,
       9, 10, 24, 8, 14, 5, 10, 28, 8, 5, 10, 33, 8, 6, 58, 10, 37, 8, 4, f, 10, 42, 8, 10, 43,
       s, 10, 47, 8, 11, 10, 53, 8, 3, 4, s, 10, 58, 8, 10, 59, f, 10, 63, 8, 11, 10, 69, 8,
       3] := by
  have hx : calculate_checksum
      [13, 12, 30, 10, 12, 8, 13, 19, 15, 10, 18, 8, 9, 10, 24, 8, 14, 5, 10, 28, 8, 5, 10, 33, 8,
       6, 58, 10, 37, 8] = 43 := by decide
  simp [main_bytecode, add_instruction, VM_PUSH, VM_POP, VM_ADD, VM_RET, VM_CALL_EXTERNAL, VM_CMP,
    VM_JUMP_IF_EQUAL, VM_SUB, VM_PUSH_JUNK, VM_XOR, VM_MUTATE, VM_TIMING_CHECK, VM_CHECKSUM_CHECK,
    VM_CHECKSUM_PUSH, VM_ROTL, hx]

theorem int_xor_self (a : Int) : Int.xor a a = 0 := by
  cases a <;> simp [Int.xor]

theorem int_xor_ne_self (a c : Int) (hc : c ≠ 0) : Int.xor a c ≠ a := by
  intro h
  have h1 : Int.xor a (Int.xor a c) = c := by
    rw [← int_xor_assoc, int_xor_self, int_zero_xor]
  rw [h, int_xor_self] at h1
  exact hc h1.symm

theorem main_vm_eq (U s : Int) (cbS cbF : Nat) :
    main_vm U s cbS cbF =
      { VM.fresh with
          bytecode := main_bytecode U s (Int.xor s 1515870810),
          external_calls := [(Int.xor s 1515870810, cbF), (s, cbS)] } := by
  have hne : ¬ s = Int.xor s 1515870810 := fun h => int_xor_ne_self s 1515870810 (by decide) h.symm
  simp [main_vm, register_external_call, load_bytecode, VM.fresh, hne]

set_option maxRecDepth 4096 in
set_option maxHeartbeats 4000000 in
theorem main_trace_success (U s f : Int) (cbS cbF : Nat) (clock : Nat → Nat)
    (hU : U = 1152) (hsf : ¬ s = f) :
    let P0 : List Int :=
      [0, U, 10, 0, 8, 12, 12, 30, 43, 10, 5, 8, 13, 12, 30, 10, 12, 8, 13, 19, 15, 10, 18, 8, 9,
       10, 24, 8, 14, 5, 10, 28, 8, 5, 10, 33, 8, 6, 58, 10, 37, 8, 4, f, 10, 42, 8, 10, 43, s,
       10, 47, 8, 11, 10, 53, 8, 3, 4, s, 10, 58, 8, 10, 59, f, 10, 63, 8, 11, 10, 69, 8, 3]
    let P7 : List Int :=
      [8, U, 10, 0, 8, 8, 12, 30, 43, 10, 5, 8, 8, 12, 30, 10, 12, 8, 8, 19, 15, 10, 18, 8, 8,
       10, 24, 8, 8, 5, 10, 28, 8, 8, 10, 33, 8, 6, 58, 10, 37, 8, 4, f, 10, 42, 8, 10, 43, s,
       10, 47, 8, 11, 10, 53, 8, 3, 4, s, 10, 58, 8, 10, 59, f, 10, 63, 8, 11, 10, 69, 8, 3]
    let P10 : List Int :=
      [8, U, 10, 0, 8, 8, 12, 30, 43, 10, 5, 8, 8, 12, 30, 10, 12, 8, 8, 19, 15, 10, 18, 8, 8,
       10, 24, 8, 8, 5, 10, 28, 8, 8, 10, 33, 8, 6, 58, 10, 37, 8, 4, f, 10, 42, 8, 10, 43, s,
       10, 47, 8, 11, 10, 53, 8, 3, 8, f, 10, 58, 8, 8, 59, f, 10, 63, 8, 11, 10, 69, 8, 3]
    let P11 : List Int :=
      [8, U, 10, 0, 8, 8, 12, 30, 43, 10, 5, 8, 8, 12, 30, 10, 12, 8, 8, 19, 15, 10, 18, 8, 8,
       10, 24, 8, 8, 5, 10, 28, 8, 8, 10, 33, 8, 6, 58, 10, 37, 8, 4, f, 10, 42, 8, 10, 43, s,
       10, 47, 8, 11, 10, 53, 8, 3, 8, f, 10, 58, 8, 8, 59, f, 10, 63, 8, 8, 10, 69, 8, 3]
    let E : List (Int × Nat) := [(f, cbF), (s, cbS)]
    cycles clock 16 0 (VM.mk P0 [] 0 E false true [] [])
      = some (VM.mk P7 [] 60 E false true [cbS] []) ∧
    (¬ clock 19 / 1000000000 > 2 →
      cycles clock 22 0 (VM.mk P0 [] 0 E false true [] [])
        = some (VM.mk P11 [] 74 E false false [cbS] [])) ∧
    (clock 19 / 1000000000 > 2 →
      cycles clock 20 0 (VM.mk P0 [] 0 E false true [] [])
        = some (VM.mk P10 [] 70 E true true [cbS] [Msg.timing_anomaly])) := by
  intro P0 P7 P10 P11 E
  let P1 : List Int :=
    [8, U, 10, 0, 8, 12, 12, 30, 43, 10, 5, 8, 13, 12, 30, 10, 12, 8, 13, 19, 15, 10, 18, 8, 9,
     10, 24, 8, 14, 5, 10, 28, 8, 5, 10, 33, 8, 6, 58, 10, 37, 8, 4, f, 10, 42, 8, 10, 43, s,
     10, 47, 8, 11, 10, 53, 8, 3, 4, s, 10, 58, 8, 10, 59, f, 10, 63, 8, 11, 10, 69, 8, 3]
  let P2 : List Int :=
    [8, U, 10, 0, 8, 8, 12, 30, 43, 10, 5, 8, 13, 12, 30, 10, 12, 8, 13, 19, 15, 10, 18, 8, 9,
     10, 24, 8, 14, 5, 10, 28, 8, 5, 10, 33, 8, 6, 58, 10, 37, 8, 4, f, 10, 42, 8, 10, 43, s,
     10, 47, 8, 11, 10, 53, 8, 3, 4, s, 10, 58, 8, 10, 59, f, 10, 63, 8, 11, 10, 69, 8, 3]
  let P3 : List Int :=
    [8, U, 10, 0, 8, 8, 12, 30, 43, 10, 5, 8, 8, 12, 30, 10, 12, 8, 13, 19, 15, 10, 18, 8, 9,
     10, 24, 8, 14, 5, 10, 28, 8, 5, 10, 33, 8, 6, 58, 10, 37, 8, 4, f, 10, 42, 8, 10, 43, s,
     10, 47, 8, 11, 10, 53, 8, 3, 4, s, 10, 58, 8, 10, 59, f, 10, 63, 8, 11, 10, 69, 8, 3]
  let P4 : List Int :=
    [8, U, 10, 0, 8, 8, 12, 30, 43, 10, 5, 8, 8, 12, 30, 10, 12, 8, 8, 19, 15, 10, 18, 8, 9,
     10, 24, 8, 14, 5, 10, 28, 8, 5, 10, 33, 8, 6, 58, 10, 37, 8, 4, f, 10, 42, 8, 10, 43, s,
     10, 47, 8, 11, 10, 53, 8, 3, 4, s, 10, 58, 8, 10, 59, f, 10, 63, 8, 11, 10, 69, 8, 3]
  let P5 : List Int :=
    [8, U, 10, 0, 8, 8, 12, 30, 43, 10, 5, 8, 8, 12, 30, 10, 12, 8, 8, 19, 15, 10, 18, 8, 8,
     10, 24, 8, 14, 5, 10, 28, 8, 5, 10, 33, 8, 6, 58, 10, 37, 8, 4, f, 10, 42, 8, 10, 43, s,
     10, 47, 8, 11, 10, 53, 8, 3, 4, s, 10, 58, 8, 10, 59, f, 10, 63, 8, 11, 10, 69, 8, 3]
  let P6 : List Int :=
    [8, U, 10, 0, 8, 8, 12, 30, 43, 10, 5, 8, 8, 12, 30, 10, 12, 8, 8, 19, 15, 10, 18, 8, 8,
     10, 24, 8, 8, 5, 10, 28, 8, 5, 10, 33, 8, 6, 58, 10, 37, 8, 4, f, 10, 42, 8, 10, 43, s,
     10, 47, 8, 11, 10, 53, 8, 3, 4, s, 10, 58, 8, 10, 59, f, 10, 63, 8, 11, 10, 69, 8, 3]
  let P8 : List Int :=
    [8, U, 10, 0, 8, 8, 12, 30, 43, 10, 5, 8, 8, 12, 30, 10, 12, 8, 8, 19, 15, 10, 18, 8, 8,
     10, 24, 8, 8, 5, 10, 28, 8, 8, 10, 33, 8, 6, 58, 10, 37, 8, 4, f, 10, 42, 8, 10, 43, s,
     10, 47, 8, 11, 10, 53, 8, 3, 8, s, 10, 58, 8, 10, 59, f, 10, 63, 8, 11, 10, 69, 8, 3]
  let P9 : List Int :=
    [8, U, 10, 0, 8, 8, 12, 30, 43, 10, 5, 8, 8, 12, 30, 10, 12, 8, 8, 19, 15, 10, 18, 8, 8,
     10, 24, 8, 8, 5, 10, 28, 8, 8, 10, 33, 8, 6, 58, 10, 37, 8, 4, f, 10, 42, 8, 10, 43, s,
     10, 47, 8, 11, 10, 53, 8, 3, 8, f, 10, 58, 8, 10, 59, f, 10, 63, 8, 11, 10, 69, 8, 3]
  have hrot : rotl32 36 5 = 1152 := by decide
  have hbeq : (s == f) = false := by simpa using hsf
  have hlook : List.lookup s E = some cbS := by
    simp [E, List.lookup, hbeq]
  have h0 : fetch_execute (clock 0) (VM.mk P0 [] 0 E false true [] [])
      = some (VM.mk P0 [U] 2 E false true [] []) := rfl
  have h1 : fetch_execute (clock 1) (VM.mk P0 [U] 2 E false true [] [])
      = some (VM.mk P1 [U] 5 E false true [] []) := rfl
  have h2 : fetch_execute (clock 2) (VM.mk P1 [U] 5 E false true [] [])
      = some (VM.mk P1 [U] 9 E false true [] []) := rfl
  have h3 : fetch_execute (clock 3) (VM.mk P1 [U] 9 E false true [] [])
      = some (VM.mk P2 [U] 12 E false true [] []) := rfl
  have h4 : fetch_execute (clock 4) (VM.mk P2 [U] 12 E false true [] [])
      = some (VM.mk P2 [43, U] 15 E false true [] []) := rfl
  have h5 : fetch_execute (clock 5) (VM.mk P2 [43, U] 15 E false true [] [])
      = some (VM.mk P3 [43, U] 18 E false true [] []) := rfl
  have h6 : fetch_execute (clock 6) (VM.mk P3 [43, U] 18 E false true [] [])
      = some (VM.mk P3 [15, 43, U] 21 E false true [] []) := rfl
  have h7 : fetch_execute (clock 7) (VM.mk P3 [15, 43, U] 21 E false true [] [])
      = some (VM.mk P4 [15, 43, U] 24 E false true [] []) := rfl
  have h8 : fetch_execute (clock 8) (VM.mk P4 [15, 43, U] 24 E false true [] [])
      = some (VM.mk P4 [36, U] 25 E false true [] []) := rfl
  have h9 : fetch_execute (clock 9) (VM.mk P4 [36, U] 25 E false true [] [])
      = some (VM.mk P5 [36, U] 28 E false true [] []) := rfl
  have h10 : fetch_execute (clock 10) (VM.mk P5 [36, U] 28 E false true [] [])
      = some (VM.mk P5 [rotl32 36 5, U] 30 E false true [] []) :=
    fetch_execute_rotl _ _ 36 5 [U] rfl rfl rfl (by decide) (by decide)
  rw [hrot] at h10
  have h11 : fetch_execute (clock 11) (VM.mk P5 [1152, U] 30 E false true [] [])
      = some (VM.mk P6 [1152, U] 33 E false true [] []) := rfl
  have h12 : fetch_execute (clock 12) (VM.mk P6 [1152, U] 33 E false true [] [])
      = some (VM.mk P6 [if U = 1152 then 1 else 0] 34 E false true [] []) := rfl
  rw [if_pos hU] at h12
  have h13 : fetch_execute (clock 13) (VM.mk P6 [1] 34 E false true [] [])
      = some (VM.mk P7 [1] 37 E false true [] []) := rfl
  have h14 : fetch_execute (clock 14) (VM.mk P7 [1] 37 E false true [] [])
      = some (VM.mk P7 [] 58 E false true [] []) := rfl
  have h15 : fetch_execute (clock 15) (VM.mk P7 [] 58 E false true [] [])
      = some (VM.mk P7 [] 60 E false true [cbS] []) :=
    fetch_execute_call_external_fire _ _ s cbS rfl rfl hlook
  have h16 : fetch_execute (clock 16) (VM.mk P7 [] 60 E false true [cbS] [])
      = some (VM.mk P8 [] 63 E false true [cbS] []) := rfl
  have h17 : fetch_execute (clock 17) (VM.mk P8 [] 63 E false true [cbS] [])
      = some (VM.mk P9 [] 66 E false true [cbS] []) := rfl
  have h18 : fetch_execute (clock 18) (VM.mk P9 [] 66 E false true [cbS] [])
      = some (VM.mk P10 [] 69 E false true [cbS] []) := rfl
  have h20 : fetch_execute (clock 20) (VM.mk P10 [] 70 E false true [cbS] [])
      = some (VM.mk P11 [] 73 E false true [cbS] []) := rfl
  have hq : ¬ clock 19 / 1000000000 > 2 → fetch_execute (clock 19) (VM.mk P10 [] 69 E false true [cbS] [])
      = some (VM.mk P10 [] 70 E false true [cbS] []) :=
    fun ht => (fetch_execute_timing_check (clock 19) (VM.mk P10 [] 69 E false true [cbS] []) rfl).trans (if_neg ht)
  have ha : clock 19 / 1000000000 > 2 → fetch_execute (clock 19) (VM.mk P10 [] 69 E false true [cbS] [])
      = some (VM.mk P10 [] 70 E true true [cbS] [Msg.timing_anomaly]) :=
    fun ht => (fetch_execute_timing_check (clock 19) (VM.mk P10 [] 69 E false true [cbS] []) rfl).trans (if_pos ht)
  have hret : fetch_execute (clock 21) (VM.mk P11 [] 73 E false true [cbS] [])
      = some (VM.mk P11 [] 74 E false false [cbS] []) := rfl
  refine ⟨?_, ?_, ?_⟩
  · refine (cycles_step clock _ _ _ _ rfl rfl h0).trans ?_
    refine (cycles_step clock _ _ _ _ rfl rfl h1).trans ?_
    refine (cycles_step clock _ _ _ _ rfl rfl h2).trans ?_
    refine (cycles_step clock _ _ _ _ rfl rfl h3).trans ?_
    refine (cycles_step clock _ _ _ _ rfl rfl h4).trans ?_
    refine (cycles_step clock _ _ _ _ rfl rfl h5).trans ?_
    refine (cycles_step clock _ _ _ _ rfl rfl h6).trans ?_
    refine (cycles_step clock _ _ _ _ rfl rfl h7).trans ?_
    refine (cycles_step clock _ _ _ _ rfl rfl h8).trans ?_
    refine (cycles_step clock _ _ _ _ rfl rfl h9).trans ?_
    refine (cycles_step clock _ _ _ _ rfl rfl h10).trans ?_
    refine (cycles_step clock _ _ _ _ rfl rfl h11).trans ?_
    refine (cycles_step clock _ _ _ _ rfl rfl h12).trans ?_
    refine (cycles_step clock _ _ _ _ rfl rfl h13).trans ?_
    refine (cycles_step clock _ _ _ _ rfl rfl h14).trans ?_
    refine (cycles_step clock _ _ _ _ rfl rfl h15).trans ?_
    rfl
  · intro ht
    refine (cycles_step clock _ _ _ _ rfl rfl h0).trans ?_
    refine (cycles_step clock _ _ _ _ rfl rfl h1).trans ?_
    refine (cycles_step clock _ _ _ _ rfl rfl h2).trans ?_
    refine (cycles_step clock _ _ _ _ rfl rfl h3).trans ?_
    refine (cycles_step clock _ _ _ _ rfl rfl h4).trans ?_
    refine (cycles_step clock _ _ _ _ rfl rfl h5).trans ?_
    refine (cycles_step clock _ _ _ _ rfl rfl h6).trans ?_
    refine (cycles_step clock _ _ _ _ rfl rfl h7).trans ?_
    refine (cycles_step clock _ _ _ _ rfl rfl h8).trans ?_
    refine (cycles_step clock _ _ _ _ rfl rfl h9).trans ?_
    refine (cycles_step clock _ _ _ _ rfl rfl h10).trans ?_
    refine (cycles_step clock _ _ _ _ rfl rfl h11).trans ?_
    refine (cycles_step clock _ _ _ _ rfl rfl h12).trans ?_
    refine (cycles_step clock _ _ _ _ rfl rfl h13).trans ?_
    refine (cycles_step clock _ _ _ _ rfl rfl h14).trans ?_
    refine (cycles_step clock _ _ _ _ rfl rfl h15).trans ?_
    refine (cycles_step clock _ _ _ _ rfl rfl h16).trans ?_
    refine (cycles_step clock _ _ _ _ rfl rfl h17).trans ?_
    refine (cycles_step clock _ _ _ _ rfl rfl h18).trans ?_
    refine (cycles_step clock _ _ _ _ rfl rfl (hq ht)).trans ?_
    refine (cycles_step clock _ _ _ _ rfl rfl h20).trans ?_
    refine (cycles_step clock _ _ _ _ rfl rfl hret).trans ?_
    rfl
  · intro ht
    refine (cycles_step clock _ _ _ _ rfl rfl h0).trans ?_
    refine (cycles_step clock _ _ _ _ rfl rfl h1).trans ?_
    refine (cycles_step clock _ _ _ _ rfl rfl h2).trans ?_
    refine (cycles_step clock _ _ _ _ rfl rfl h3).trans ?_
    refine (cycles_step clock _ _ _ _ rfl rfl h4).trans ?_
    refine (cycles_step clock _ _ _ _ rfl rfl h5).trans ?_
    refine (cycles_step clock _ _ _ _ rfl rfl h6).trans ?_
    refine (cycles_step clock _ _ _ _ rfl rfl h7).trans ?_
    refine (cycles_step clock _ _ _ _ rfl rfl h8).trans ?_
    refine (cycles_step clock _ _ _ _ rfl rfl h9).trans ?_
    refine (cycles_step clock _ _ _ _ rfl rfl h10).trans ?_
    refine (cycles_step clock _ _ _ _ rfl rfl h11).trans ?_
    refine (cycles_step clock _ _ _ _ rfl rfl h12).trans ?_
    refine (cycles_step clock _ _ _ _ rfl rfl h13).trans ?_
    refine (cycles_step clock _ _ _ _ rfl rfl h14).trans ?_
    refine (cycles_step clock _ _ _ _ rfl rfl h15).trans ?_
    refine (cycles_step clock _ _ _ _ rfl rfl h16).trans ?_
    refine (cycles_step clock _ _ _ _ rfl rfl h17).trans ?_
    refine (cycles_step clock _ _ _ _ rfl rfl h18).trans ?_
    refine (cycles_step clock _ _ _ _ rfl rfl (ha ht)).trans ?_
    rfl

set_option maxRecDepth 4096 in
set_option maxHeartbeats 4000000 in
theorem main_trace_failure (U s f : Int) (cbS cbF : Nat) (clock : Nat → Nat)
    (hU : ¬ U = 1152) (hsf : ¬ s = f) :
    let P0 : List Int :=
      [0, U, 10, 0, 8, 12, 12, 30, 43, 10, 5, 8, 13, 12, 30, 10, 12, 8, 13, 19, 15, 10, 18, 8, 9,
       10, 24, 8, 14, 5, 10, 28, 8, 5, 10, 33, 8, 6, 58, 10, 37, 8, 4, f, 10, 42, 8, 10, 43, s,
       10, 47, 8, 11, 10, 53, 8, 3, 4, s, 10, 58, 8, 10, 59, f, 10, 63, 8, 11, 10, 69, 8, 3]
    let P8 : List Int :=
      [8, U, 10, 0, 8, 8, 12, 30, 43, 10, 5, 8, 8, 12, 30, 10, 12, 8, 8, 19, 15, 10, 18, 8, 8,
       10, 24, 8, 8, 5, 10, 28, 8, 8, 10, 33, 8, 8, 58, 10, 37, 8, 4, f, 10, 42, 8, 10, 43, s,
       10, 47, 8, 11, 10, 53, 8, 3, 4, s, 10, 58, 8, 10, 59, f, 10, 63, 8, 11, 10, 69, 8, 3]
    let P11 : List Int :=
      [8, U, 10, 0, 8, 8, 12, 30, 43, 10, 5, 8, 8, 12, 30, 10, 12, 8, 8, 19, 15, 10, 18, 8, 8,
       10, 24, 8, 8, 5, 10, 28, 8, 8, 10, 33, 8, 8, 58, 10, 37, 8, 8, s, 10, 42, 8, 8, 43, s, 10,
       47, 8, 11, 10, 53, 8, 3, 4, s, 10, 58, 8, 10, 59, f, 10, 63, 8, 11, 10, 69, 8, 3]
    let P12 : List Int :=
      [8, U, 10, 0, 8, 8, 12, 30, 43, 10, 5, 8, 8, 12, 30, 10, 12, 8, 8, 19, 15, 10, 18, 8, 8,
       10, 24, 8, 8, 5, 10, 28, 8, 8, 10, 33, 8, 8, 58, 10, 37, 8, 8, s, 10, 42, 8, 8, 43, s, 10,
       47, 8, 8, 10, 53, 8, 3, 4, s, 10, 58, 8, 10, 59, f, 10, 63, 8, 11, 10, 69, 8, 3]
    let E : List (Int × Nat) := [(f, cbF), (s, cbS)]
    cycles clock 17 0 (VM.mk P0 [] 0 E false true [] [])
      = some (VM.mk P8 [] 44 E false true [cbF] []) ∧
    (¬ clock 20 / 1000000000 > 2 →
      cycles clock 23 0 (VM.mk P0 [] 0 E false true [] [])
        = some (VM.mk P12 [] 58 E false false [cbF] [])) ∧
    (clock 20 / 1000000000 > 2 →
      cycles clock 21 0 (VM.mk P0 [] 0 E false true [] [])
        = some (VM.mk P11 [] 54 E true true [cbF] [Msg.timing_anomaly])) := by
  intro P0 P8 P11 P12 E
  let P1 : List Int :=
    [8, U, 10, 0, 8, 12, 12, 30, 43, 10, 5, 8, 13, 12, 30, 10, 12, 8, 13, 19, 15, 10, 18, 8, 9,
     10, 24, 8, 14, 5, 10, 28, 8, 5, 10, 33, 8, 6, 58, 10, 37, 8, 4, f, 10, 42, 8, 10, 43, s,
     10, 47, 8, 11, 10, 53, 8, 3, 4, s, 10, 58, 8, 10, 59, f, 10, 63, 8, 11, 10, 69, 8, 3]
  let P2 : List Int :=
    [8, U, 10, 0, 8, 8, 12, 30, 43, 10, 5, 8, 13, 12, 30, 10, 12, 8, 13, 19, 15, 10, 18, 8, 9,
     10, 24, 8, 14, 5, 10, 28, 8, 5, 10, 33, 8, 6, 58, 10, 37, 8, 4, f, 10, 42, 8, 10, 43, s,
     10, 47, 8, 11, 10, 53, 8, 3, 4, s, 10, 58, 8, 10, 59, f, 10, 63, 8, 11, 10, 69, 8, 3]
  let P3 : List Int :=
    [8, U, 10, 0, 8, 8, 12, 30, 43, 10, 5, 8, 8, 12, 30, 10, 12, 8, 13, 19, 15, 10, 18, 8, 9,
     10, 24, 8, 14, 5, 10, 28, 8, 5, 10, 33, 8, 6, 58, 10, 37, 8, 4, f, 10, 42, 8, 10, 43, s,
     10, 47, 8, 11, 10, 53, 8, 3, 4, s, 10, 58, 8, 10, 59, f, 10, 63, 8, 11, 10, 69, 8, 3]
  let P4 : List Int :=
    [8, U, 10, 0, 8, 8, 12, 30, 43, 10, 5, 8, 8, 12, 30, 10, 12, 8, 8, 19, 15, 10, 18, 8, 9,
     10, 24, 8, 14, 5, 10, 28, 8, 5, 10, 33, 8, 6, 58, 10, 37, 8, 4, f, 10, 42, 8, 10, 43, s,
     10, 47, 8, 11, 10, 53, 8, 3, 4, s, 10, 58, 8, 10, 59, f, 10, 63, 8, 11, 10, 69, 8, 3]
  let P5 : List Int :=
    [8, U, 10, 0, 8, 8, 12, 30, 43, 10, 5, 8, 8, 12, 30, 10, 12, 8, 8, 19, 15, 10, 18, 8, 8,
     10, 24, 8, 14, 5, 10, 28, 8, 5, 10, 33, 8, 6, 58, 10, 37, 8, 4, f, 10, 42, 8, 10, 43, s,
     10, 47, 8, 11, 10, 53, 8, 3, 4, s, 10, 58, 8, 10, 59, f, 10, 63, 8, 11, 10, 69, 8, 3]
  let P6 : List Int :=
    [8, U, 10, 0, 8, 8, 12, 30, 43, 10, 5, 8, 8, 12, 30, 10, 12, 8, 8, 19, 15, 10, 18, 8, 8,
     10, 24, 8, 8, 5, 10, 28, 8, 5, 10, 33, 8, 6, 58, 10, 37, 8, 4, f, 10, 42, 8, 10, 43, s,
     10, 47, 8, 11, 10, 53, 8, 3, 4, s, 10, 58, 8, 10, 59, f, 10, 63, 8, 11, 10, 69, 8, 3]
  let P7 : List Int :=
    [8, U, 10, 0, 8, 8, 12, 30, 43, 10, 5, 8, 8, 12, 30, 10, 12, 8, 8, 19, 15, 10, 18, 8, 8,
     10, 24, 8, 8, 5, 10, 28, 8, 8, 10, 33, 8, 6, 58, 10, 37, 8, 4, f, 10, 42, 8, 10, 43, s,
     10, 47, 8, 11, 10, 53, 8, 3, 4, s, 10, 58, 8, 10, 59, f, 10, 63, 8, 11, 10, 69, 8, 3]
  let P9 : List Int :=
    [8, U, 10, 0, 8, 8, 12, 30, 43, 10, 5, 8, 8, 12, 30, 10, 12, 8, 8, 19, 15, 10, 18, 8, 8,
     10, 24, 8, 8, 5, 10, 28, 8, 8, 10, 33, 8, 8, 58, 10, 37, 8, 8, f, 10, 42, 8, 10, 43, s,
     10, 47, 8, 11, 10, 53, 8, 3, 4, s, 10, 58, 8, 10, 59, f, 10, 63, 8, 11, 10, 69, 8, 3]
  let P10 : List Int :=
    [8, U, 10, 0, 8, 8, 12, 30, 43, 10, 5, 8, 8, 12, 30, 10, 12, 8, 8, 19, 15, 10, 18, 8, 8,
     10, 24, 8, 8, 5, 10, 28, 8, 8, 10, 33, 8, 8, 58, 10, 37, 8, 8, s, 10, 42, 8, 10, 43, s,
     10, 47, 8, 11, 10, 53, 8, 3, 4, s, 10, 58, 8, 10, 59, f, 10, 63, 8, 11, 10, 69, 8, 3]
  have hrot : rotl32 36 5 = 1152 := by decide
  have hbeq : (s == f) = false := by simpa using hsf
  have hlook : List.lookup f E = some cbF := by
    simp [E, List.lookup]
  have h0 : fetch_execute (clock 0) (VM.mk P0 [] 0 E false true [] [])
      = some (VM.mk P0 [U] 2 E false true [] []) := rfl
  have h1 : fetch_execute (clock 1) (VM.mk P0 [U] 2 E false true [] [])
      = some (VM.mk P1 [U] 5 E false true [] []) := rfl
  have h2 : fetch_execute (clock 2) (VM.mk P1 [U] 5 E false true [] [])
      = some (VM.mk P1 [U] 9 E false true [] []) := rfl
  have h3 : fetch_execute (clock 3) (VM.mk P1 [U] 9 E false true [] [])
      = some (VM.mk P2 [U] 12 E false true [] []) := rfl
  have h4 : fetch_execute (clock 4) (VM.mk P2 [U] 12 E false true [] [])
      = some (VM.mk P2 [43, U] 15 E false true [] []) := rfl
  have h5 : fetch_execute (clock 5) (VM.mk P2 [43, U] 15 E false true [] [])
      = some (VM.mk P3 [43, U] 18 E false true [] []) := rfl
  have h6 : fetch_execute (clock 6) (VM.mk P3 [43, U] 18 E false true [] [])
      = some (VM.mk P3 [15, 43, U] 21 E false true [] []) := rfl
  have h7 : fetch_execute (clock 7) (VM.mk P3 [15, 43, U] 21 E false true [] [])
      = some (VM.mk P4 [15, 43, U] 24 E false true [] []) := rfl
  have h8 : fetch_execute (clock 8) (VM.mk P4 [15, 43, U] 24 E false true [] [])
      = some (VM.mk P4 [36, U] 25 E false true [] []) := rfl
  have h9 : fetch_execute (clock 9) (VM.mk P4 [36, U] 25 E false true [] [])
      = some (VM.mk P5 [36, U] 28 E false true [] []) := rfl
  have h10 : fetch_execute (clock 10) (VM.mk P5 [36, U] 28 E false true [] [])
      = some (VM.mk P5 [rotl32 36 5, U] 30 E false true [] []) :=
    fetch_execute_rotl _ _ 36 5 [U] rfl rfl rfl (by decide) (by decide)
  rw [hrot] at h10
  have h11 : fetch_execute (clock 11) (VM.mk P5 [1152, U] 30 E false true [] [])
      = some (VM.mk P6 [1152, U] 33 E false true [] []) := rfl
  have h12 : fetch_execute (clock 12) (VM.mk P6 [1152, U] 33 E false true [] [])
      = some (VM.mk P6 [if U = 1152 then 1 else 0] 34 E false true [] []) := rfl
  rw [if_neg hU] at h12
  have h13 : fetch_execute (clock 13) (VM.mk P6 [0] 34 E false true [] [])
      = some (VM.mk P7 [0] 37 E false true [] []) := rfl
  have h14 : fetch_execute (clock 14) (VM.mk P7 [0] 37 E false true [] [])
      = some (VM.mk P7 [] 39 E false true [] []) := rfl
  have h15 : fetch_execute (clock 15) (VM.mk P7 [] 39 E false true [] [])
      = some (VM.mk P8 [] 42 E false true [] []) := rfl
  have h16 : fetch_execute (clock 16) (VM.mk P8 [] 42 E false true [] [])
      = some (VM.mk P8 [] 44 E false true [cbF] []) :=
    fetch_execute_call_external_fire _ _ f cbF rfl rfl hlook
  have h17 : fetch_execute (clock 17) (VM.mk P8 [] 44 E false true [cbF] [])
      = some (VM.mk P9 [] 47 E false true [cbF] []) := rfl
  have h18 : fetch_execute (clock 18) (VM.mk P9 [] 47 E false true [cbF] [])
      = some (VM.mk P10 [] 50 E false true [cbF] []) := rfl
  have h19 : fetch_execute (clock 19) (VM.mk P10 [] 50 E false true [cbF] [])
      = some (VM.mk P11 [] 53 E false true [cbF] []) := rfl
  have h21 : fetch_execute (clock 21) (VM.mk P11 [] 54 E false true [cbF] [])
      = some (VM.mk P12 [] 57 E false true [cbF] []) := rfl
  have hq : ¬ clock 20 / 1000000000 > 2 → fetch_execute (clock 20) (VM.mk P11 [] 53 E false true [cbF] [])
      = some (VM.mk P11 [] 54 E false true [cbF] []) :=
    fun ht => (fetch_execute_timing_check (clock 20) (VM.mk P11 [] 53 E false true [cbF] []) rfl).trans (if_neg ht)
  have ha : clock 20 / 1000000000 > 2 → fetch_execute (clock 20) (VM.mk P11 [] 53 E false true [cbF] [])
      = some (VM.mk P11 [] 54 E true true [cbF] [Msg.timing_anomaly]) :=
    fun ht => (fetch_execute_timing_check (clock 20) (VM.mk P11 [] 53 E false true [cbF] []) rfl).trans (if_pos ht)
  have hret : fetch_execute (clock 22) (VM.mk P12 [] 57 E false true [cbF] [])
      = some (VM.mk P12 [] 58 E false false [cbF] []) := rfl
  refine ⟨?_, ?_, ?_⟩
  · refine (cycles_step clock _ _ _ _ rfl rfl h0).trans ?_
    refine (cycles_step clock _ _ _ _ rfl rfl h1).trans ?_
    refine (cycles_step clock _ _ _ _ rfl rfl h2).trans ?_
    refine (cycles_step clock _ _ _ _ rfl rfl h3).trans ?_
    refine (cycles_step clock _ _ _ _ rfl rfl h4).trans ?_
    refine (cycles_step clock _ _ _ _ rfl rfl h5).trans ?_
    refine (cycles_step clock _ _ _ _ rfl rfl h6).trans ?_
    refine (cycles_step clock _ _ _ _ rfl rfl h7).trans ?_
    refine (cycles_step clock _ _ _ _ rfl rfl h8).trans ?_
    refine (cycles_step clock _ _ _ _ rfl rfl h9).trans ?_
    refine (cycles_step clock _ _ _ _ rfl rfl h10).trans ?_
    refine (cycles_step clock _ _ _ _ rfl rfl h11).trans ?_
    refine (cycles_step clock _ _ _ _ rfl rfl h12).trans ?_
    refine (cycles_step clock _ _ _ _ rfl rfl h13).trans ?_
    refine (cycles_step clock _ _ _ _ rfl rfl h14).trans ?_
    refine (cycles_step clock _ _ _ _ rfl rfl h15).trans ?_
    refine (cycles_step clock _ _ _ _ rfl rfl h16).trans ?_
    rfl
  · intro ht
    refine (cycles_step clock _ _ _ _ rfl rfl h0).trans ?_
    refine (cycles_step clock _ _ _ _ rfl rfl h1).trans ?_
    refine (cycles_step clock _ _ _ _ rfl rfl h2).trans ?_
    refine (cycles_step clock _ _ _ _ rfl rfl h3).trans ?_
    refine (cycles_step clock _ _ _ _ rfl rfl h4).trans ?_
    refine (cycles_step clock _ _ _ _ rfl rfl h5).trans ?_
    refine (cycles_step clock _ _ _ _ rfl rfl h6).trans ?_
    refine (cycles_step clock _ _ _ _ rfl rfl h7).trans ?_
    refine (cycles_step clock _ _ _ _ rfl rfl h8).trans ?_
    refine (cycles_step clock _ _ _ _ rfl rfl h9).trans ?_
    refine (cycles_step clock _ _ _ _ rfl rfl h10).trans ?_
    refine (cycles_step clock _ _ _ _ rfl rfl h11).trans ?_
    refine (cycles_step clock _ _ _ _ rfl rfl h12).trans ?_
    refine (cycles_step clock _ _ _ _ rfl rfl h13).trans ?_
    refine (cycles_step clock _ _ _ _ rfl rfl h14).trans ?_
    refine (cycles_step clock _ _ _ _ rfl rfl h15).trans ?_
    refine (cycles_step clock _ _ _ _ rfl rfl h16).trans ?_
    refine (cycles_step clock _ _ _ _ rfl rfl h17).trans ?_
    refine (cycles_step clock _ _ _ _ rfl rfl h18).trans ?_
    refine (cycles_step clock _ _ _ _ rfl rfl h19).trans ?_
    refine (cycles_step clock _ _ _ _ rfl rfl (hq ht)).trans ?_
    refine (cycles_step clock _ _ _ _ rfl rfl h21).trans ?_
    refine (cycles_step clock _ _ _ _ rfl rfl hret).trans ?_
    rfl
  · intro ht
    refine (cycles_step clock _ _ _ _ rfl rfl h0).trans ?_
    refine (cycles_step clock _ _ _ _ rfl rfl h1).trans ?_
    refine (cycles_step clock _ _ _ _ rfl rfl h2).trans ?_
    refine (cycles_step clock _ _ _ _ rfl rfl h3).trans ?_
    refine (cycles_step clock _ _ _ _ rfl rfl h4).trans ?_
    refine (cycles_step clock _ _ _ _ rfl rfl h5).trans ?_
    refine (cycles_step clock _ _ _ _ rfl rfl h6).trans ?_
    refine (cycles_step clock _ _ _ _ rfl rfl h7).trans ?_
    refine (cycles_step clock _ _ _ _ rfl rfl h8).trans ?_
    refine (cycles_step clock _ _ _ _ rfl rfl h9).trans ?_
    refine (cycles_step clock _ _ _ _ rfl rfl h10).trans ?_
    refine (cycles_step clock _ _ _ _ rfl rfl h11).trans ?_
    refine (cycles_step clock _ _ _ _ rfl rfl h12).trans ?_
    refine (cycles_step clock _ _ _ _ rfl rfl h13).trans ?_
    refine (cycles_step clock _ _ _ _ rfl rfl h14).trans ?_
    refine (cycles_step clock _ _ _ _ rfl rfl h15).trans ?_
    refine (cycles_step clock _ _ _ _ rfl rfl h16).trans ?_
    refine (cycles_step clock _ _ _ _ rfl rfl h17).trans ?_
    refine (cycles_step clock _ _ _ _ rfl rfl h18).trans ?_
    refine (cycles_step clock _ _ _ _ rfl rfl h19).trans ?_
    refine (cycles_step clock _ _ _ _ rfl rfl (ha ht)).trans ?_
    rfl

theorem main_accepted_key_eq (U s f : Int) : main_accepted_key (main_bytecode U s f) = 1152 := by
  have h1 : xor_fold (program_range (main_bytecode U s f) 12 30) = 43 := by
    rw [main_bytecode_eq]
    simp [program_range, xor_fold]
    decide
  have h2 : xor_fold (program_range (main_bytecode U s f) (12 + 30 / 4) (30 / 2)) = 15 := by
    rw [main_bytecode_eq]
    simp [program_range, xor_fold]
    decide
  unfold main_accepted_key
  rw [h1, h2]
  decide

theorem main_vm_running (U s : Int) (cbS cbF : Nat) :
    ({ main_vm U s cbS cbF with is_running := true } : VM)
      = VM.mk (main_bytecode U s (Int.xor s 1515870810)) [] 0
          [(Int.xor s 1515870810, cbF), (s, cbS)] false true [] [] := by
  simp [main_vm_eq, VM.fresh]

theorem main_bytecode_operands (U s f : Int) :
    read (main_bytecode U s f) 6 = some 12 ∧ read (main_bytecode U s f) 7 = some 30 ∧
    read (main_bytecode U s f) 8 = some (xor_fold (program_range (main_bytecode U s f) 12 30)) ∧
    read (main_bytecode U s f) 13 = some 12 ∧ read (main_bytecode U s f) 14 = some 30 ∧
    read (main_bytecode U s f) 19 = some (12 + 30 / 4) ∧
    read (main_bytecode U s f) 20 = some (30 / 2) := by
  have h1 : xor_fold (program_range (main_bytecode U s f) 12 30) = 43 := by
    rw [main_bytecode_eq]
    simp [program_range, xor_fold]
    decide
  rw [h1, main_bytecode_eq]
  exact ⟨rfl, rfl, rfl, rfl, rfl, rfl, rfl⟩

/-- C18: for every `user_input` and every success identifier, with the failure
identifier `authSuccessId ^ 0x5A5A5A5A`, `run` on the VM prepared by `main` returns
having fired exactly one callback: the success callback when `user_input` equals
`rotl32(C1 ^ C2, 5)` and the failure callback otherwise. No checksum mismatch is ever
reported, the Integrity Flag is false at every turn of the loop up to and including
the one after the callback, the accepted key is 1152 whatever the input and the
identifiers, and the operands patched into the two `checksum_push` instructions and the
`checksum_check` are the ranges and the value the key is defined from. -/
theorem main_authenticates (user_input authSuccessId : Int) (cb_success cb_failure : Nat)
    (clock : Nat → Nat) (fuel : Nat) :
    (∃ st, run clock (fuel + 24) (main_vm user_input authSuccessId cb_success cb_failure)
        = RunResult.returned st ∧
      st.fired =
        [if user_input = main_accepted_key
            (main_bytecode user_input authSuccessId (Int.xor authSuccessId 1515870810))
          then cb_success else cb_failure] ∧
      st.stack = [] ∧ Msg.checksum_mismatch ∉ st.output) ∧
    (∃ k s_cb,
      cycles clock k 0
          { main_vm user_input authSuccessId cb_success cb_failure with is_running := true }
        = some s_cb ∧
      s_cb.fired =
        [if user_input = main_accepted_key
            (main_bytecode user_input authSuccessId (Int.xor authSuccessId 1515870810))
          then cb_success else cb_failure] ∧
      s_cb.integrity_failed = false ∧
      ∀ j sj, j ≤ k →
        cycles clock j 0
            { main_vm user_input authSuccessId cb_success cb_failure with is_running := true }
          = some sj →
        sj.integrity_failed = false) ∧
    main_accepted_key
        (main_bytecode user_input authSuccessId (Int.xor authSuccessId 1515870810)) = 1152 ∧
    (read (main_bytecode user_input authSuccessId (Int.xor authSuccessId 1515870810)) 6
        = some 12 ∧
     read (main_bytecode user_input authSuccessId (Int.xor authSuccessId 1515870810)) 7
        = some 30 ∧
     read (main_bytecode user_input authSuccessId (Int.xor authSuccessId 1515870810)) 8
        = some (xor_fold (program_range
            (main_bytecode user_input authSuccessId (Int.xor authSuccessId 1515870810)) 12 30)) ∧
     read (main_bytecode user_input authSuccessId (Int.xor authSuccessId 1515870810)) 13
        = some 12 ∧
     read (main_bytecode user_input authSuccessId (Int.xor authSuccessId 1515870810)) 14
        = some 30 ∧
     read (main_bytecode user_input authSuccessId (Int.xor authSuccessId 1515870810)) 19
        = some (12 + 30 / 4) ∧
     read (main_bytecode user_input authSuccessId (Int.xor authSuccessId 1515870810)) 20
        = some (30 / 2)) := by
  have hne : ¬ authSuccessId = Int.xor authSuccessId 1515870810 :=
    fun h => int_xor_ne_self authSuccessId 1515870810 (by decide) h.symm
  have hkey := main_accepted_key_eq user_input authSuccessId (Int.xor authSuccessId 1515870810)
  have hvm := main_vm_running user_input authSuccessId cb_success cb_failure
  have hrun : ∀ fuel2, run clock fuel2 (main_vm user_input authSuccessId cb_success cb_failure)
      = run_loop clock fuel2 0
          (VM.mk (main_bytecode user_input authSuccessId (Int.xor authSuccessId 1515870810)) [] 0
            [(Int.xor authSuccessId 1515870810, cb_failure), (authSuccessId, cb_success)]
            false true [] []) := by
    intro fuel2
    unfold run
    rw [hvm]
  rw [hkey, hvm]
  refine ⟨?_, ?_, rfl, main_bytecode_operands _ _ _⟩
  · by_cases hU : user_input = 1152
    · obtain ⟨-, hq, ha⟩ := main_trace_success user_input authSuccessId
        (Int.xor authSuccessId 1515870810) cb_success cb_failure clock hU hne
      rw [← main_bytecode_eq] at hq ha
      rw [if_pos hU, hrun]
      by_cases ht : clock 19 / 1000000000 > 2
      · have e : fuel + 24 = (fuel + 3 + 1) + 20 := by omega
        rw [e, run_loop_of_cycles clock _ _ _ _ _ (ha ht), run_loop_integrity clock _ _ _ rfl rfl]
        exact ⟨_, rfl, rfl, rfl, by simp⟩
      · have e : fuel + 24 = (fuel + 1 + 1) + 22 := by omega
        rw [e, run_loop_of_cycles clock _ _ _ _ _ (hq ht), run_loop_not_running clock _ _ _ rfl]
        exact ⟨_, rfl, rfl, rfl, by simp⟩
    · obtain ⟨-, hq, ha⟩ := main_trace_failure user_input authSuccessId
        (Int.xor authSuccessId 1515870810) cb_success cb_failure clock hU hne
      rw [← main_bytecode_eq] at hq ha
      rw [if_neg hU, hrun]
      by_cases ht : clock 20 / 1000000000 > 2
      · have e : fuel + 24 = (fuel + 2 + 1) + 21 := by omega
        rw [e, run_loop_of_cycles clock _ _ _ _ _ (ha ht), run_loop_integrity clock _ _ _ rfl rfl]
        exact ⟨_, rfl, rfl, rfl, by simp⟩
      · have e : fuel + 24 = (fuel + 0 + 1) + 23 := by omega
        rw [e, run_loop_of_cycles clock _ _ _ _ _ (hq ht), run_loop_not_running clock _ _ _ rfl]
        exact ⟨_, rfl, rfl, rfl, by simp⟩
  · by_cases hU : user_input = 1152
    · obtain ⟨hc, -, -⟩ := main_trace_success user_input authSuccessId
        (Int.xor authSuccessId 1515870810) cb_success cb_failure clock hU hne
      rw [← main_bytecode_eq] at hc
      rw [if_pos hU]
      exact ⟨16, _, hc, rfl, rfl, cycles_flag_false_before clock 16 0 _ _ hc rfl⟩
    · obtain ⟨hc, -, -⟩ := main_trace_failure user_input authSuccessId
        (Int.xor authSuccessId 1515870810) cb_success cb_failure clock hU hne
      rw [← main_bytecode_eq] at hc
      rw [if_neg hU]
      exact ⟨17, _, hc, rfl, rfl, cycles_flag_false_before clock 17 0 _ _ hc rfl⟩

/-! ## C20: cycles without a taken jump -/

theorem handler_advance (k : Int) (h : Handler) (d : Nat) (s s1 : VM)
    (hl : opcode_handlers.lookup k = some h) (hs : h d s = some s1)
    (hnj : ¬ (k = 5 ∧ ∃ rest, s.stack = 1 :: rest ∧ s.integrity_failed = false)) :
    s1.bytecode.length = s.bytecode.length ∧
    (((k = 40 ∨ k = 6 ∨ k = 22 ∨ k = 38 ∨ k = 4 ∨ k = 37 ∨ k = 20) ∧
        s1.instruction_pointer = s.instruction_pointer) ∨
     ((k = 41 ∨ k = 39 ∨ k = 5 ∨ k = 21 ∨ k = 3) ∧
        s1.instruction_pointer = s.instruction_pointer + 1) ∨
     ((k = 24 ∨ k = 23) ∧ s1.instruction_pointer = s.instruction_pointer + 2) ∨
     (k = 7 ∧ s1.instruction_pointer = s.instruction_pointer + 3)) := by
  rcases handler_cases k h hl with
    hc | hc | hc | hc | hc | hc | hc | hc | hc | hc | hc | hc | hc | hc | hc
  all_goals
    obtain ⟨hkey, hh⟩ := hc
    subst hkey hh
    first
      | (simp only [handle_jump_if_equal] at hs
         split at hs
         · cases hs
         · rename_i cond rest hstack
           split at hs
           · cases hs
           · split at hs
             · rename_i hcond
               exact absurd ⟨rfl, rest, by rw [hstack, hcond.1], hcond.2⟩ hnj
             · cases hs
               simp)
      | (simp only [handle_rotl, handle_checksum_push, handle_checksum_check,
           handle_timing_check, handle_mutate, handle_xor, handle_push_junk, handle_sub,
           handle_cmp, handle_call_external, handle_ret, handle_add, handle_pop,
           handle_push] at hs
         repeat' split at hs
         all_goals (cases hs <;> simp))

theorem takes_jump_false_elim {s : VM} {w : Int}
    (hop : read s.bytecode s.instruction_pointer = some w) (hj : takes_jump s = false) :
    ¬ (dispatch_key w = 5 ∧ ∃ rest,
        ({ s with instruction_pointer := s.instruction_pointer + 1 } : VM).stack = 1 :: rest ∧
        ({ s with instruction_pointer := s.instruction_pointer + 1 } : VM).integrity_failed
          = false) := by
  rintro ⟨hk, rest, hstack, hflag⟩
  have hstack2 : s.stack = 1 :: rest := hstack
  have hflag2 : s.integrity_failed = false := hflag
  have h5 : dispatch_key VM_JUMP_IF_EQUAL = 5 := rfl
  simp [takes_jump, hop, hstack2, hk, h5, hflag2] at hj

theorem fetch_execute_advance (d : Nat) (s s1 : VM) (hs : fetch_execute d s = some s1)
    (hj : takes_jump s = false) :
    s.instruction_pointer + 1 ≤ s1.instruction_pointer ∧
    s1.bytecode.length = s.bytecode.length := by
  unfold fetch_execute at hs
  split at hs
  · cases hs
  · rename_i w hop
    simp only at hs
    split at hs
    · rename_i h hl
      have ha := handler_advance _ h d _ s1 hl hs (takes_jump_false_elim hop hj)
      have hlen : s1.bytecode.length = s.bytecode.length := ha.1
      have hip := ha.2
      simp only at hip
      refine ⟨?_, hlen⟩
      omega
    · cases hs
      simp

theorem fetch_execute_operand_count (d : Nat) (s s1 : VM) (w : Int)
    (hop : read s.bytecode s.instruction_pointer = some w) (h0 : 0 ≤ w) (h14 : w ≤ 14)
    (hs : fetch_execute d s = some s1) (hj : takes_jump s = false) :
    s1.instruction_pointer = s.instruction_pointer + 1 + operand_count w := by
  unfold fetch_execute at hs
  rw [hop] at hs
  simp only at hs
  split at hs
  · rename_i h hl
    have ha := (handler_advance _ h d _ s1 hl hs (takes_jump_false_elim hop hj)).2
    simp only at ha
    interval_cases w <;>
      simp [dispatch_key, wrap32, Int.tmod] at ha <;>
      simp [operand_count, VM_PUSH, VM_CALL_EXTERNAL, VM_JUMP_IF_EQUAL, VM_PUSH_JUNK, VM_ROTL,
        VM_MUTATE, VM_CHECKSUM_PUSH, VM_CHECKSUM_CHECK] <;>
      omega
  · rename_i hl
    have hex : ∃ h, opcode_handlers.lookup (dispatch_key w) = some h := by
      interval_cases w <;> exact ⟨_, rfl⟩
    obtain ⟨h, hh⟩ := hex
    rw [hh] at hl
    cases hl


theorem cycles_bound (clock : Nat → Nat) :
    ∀ (k n : Nat) (s sk : VM),
      (∀ i si, cycles clock i n s = some si → takes_jump si = false) →
      cycles clock k n s = some sk →
      k = 0 ∨ s.instruction_pointer + k ≤ s.bytecode.length := by
  intro k
  induction k with
  | zero => intro n s sk _ _; exact Or.inl rfl
  | succ k ih =>
    intro n s sk hj hk
    obtain ⟨hr, hi, h0, h1, s1, hs1, hrest⟩ := cycles_succ_some hk
    have hj0 : takes_jump s = false := hj 0 s rfl
    obtain ⟨hadv, hlen⟩ := fetch_execute_advance _ s s1 hs1 hj0
    have hj1 : ∀ i si, cycles clock i (n + 1) s1 = some si → takes_jump si = false := by
      intro i si hsi
      apply hj (i + 1) si
      rw [cycles_step clock i n s s1 hr hi hs1]
      exact hsi
    right
    rcases ih (n + 1) s1 sk hj1 hrest with h | h
    · subst h
      push_cast
      omega
    · rw [hlen] at h
      push_cast
      omega

theorem run_loop_halts (clock : Nat → Nat) :
    ∀ (fuel n : Nat) (s : VM),
      (∀ i si, cycles clock i n s = some si → takes_jump si = false) →
      (∀ i si, cycles clock i n s = some si → si.is_running = true →
        si.integrity_failed = false → 0 ≤ si.instruction_pointer →
        si.instruction_pointer < si.bytecode.length →
        fetch_execute (clock (n + i)) si ≠ none) →
      ((s.bytecode.length : Int) - s.instruction_pointer).toNat < fuel →
      ∃ st, run_loop clock fuel n s = RunResult.returned st := by
  intro fuel
  induction fuel with
  | zero => intro n s _ _ h; omega
  | succ fuel ih =>
    intro n s hj hub hfuel
    by_cases hr : s.is_running = false
    · exact ⟨s, by simp [run_loop, hr]⟩
    have hr2 : s.is_running = true := by simpa using hr
    by_cases hi : s.integrity_failed = true
    · exact ⟨_, run_loop_integrity clock fuel n s hr2 hi⟩
    by_cases hg : s.instruction_pointer < 0 ∨ (s.bytecode.length : Int) ≤ s.instruction_pointer
    · exact ⟨{ s with is_running := false }, by simp [run_loop, hr, hi, hg]⟩
    have hi2 : s.integrity_failed = false := by simpa using hi
    have hdef := hub 0 s rfl hr2 hi2 (by omega) (by omega)
    cases hs1 : fetch_execute (clock n) s with
    | none => exact absurd hs1 hdef
    | some s1 =>
      have hj0 : takes_jump s = false := hj 0 s rfl
      obtain ⟨hadv, hlen⟩ := fetch_execute_advance _ s s1 hs1 hj0
      have hj1 : ∀ i si, cycles clock i (n + 1) s1 = some si → takes_jump si = false := by
        intro i si hsi
        apply hj (i + 1) si
        rw [cycles_step clock i n s s1 hr2 hi2 hs1]
        exact hsi
      have hub1 : ∀ i si, cycles clock i (n + 1) s1 = some si → si.is_running = true →
          si.integrity_failed = false → 0 ≤ si.instruction_pointer →
          si.instruction_pointer < si.bytecode.length →
          fetch_execute (clock (n + 1 + i)) si ≠ none := by
        intro i si hsi a b c e
        have := hub (i + 1) si (by rw [cycles_step clock i n s s1 hr2 hi2 hs1]; exact hsi) a b c e
        have e2 : n + (i + 1) = n + 1 + i := by omega
        rw [e2] at this
        exact this
      have hfuel1 : ((s1.bytecode.length : Int) - s1.instruction_pointer).toNat < fuel := by
        rw [hlen]
        omega
      obtain ⟨st, hst⟩ := ih (n + 1) s1 hj1 hub1 hfuel1
      exact ⟨st, by simp [run_loop, hr, hi, hg, hs1, hst]⟩

/-- C20: a cycle that fetches a defined opcode and does not take a jump moves the pointer
by one plus the operand count of the opcode, and a cycle on any word that does not
take a jump moves it strictly forward. Hence, on a fresh VM with `code` loaded, if no
turn of the loop takes a jump and none runs into undefined behaviour, the loop makes at
most `code.length` turns and `run` returns within `code.length + 1` evaluations of the
loop condition. -/
theorem run_without_jump_halts (clock : Nat → Nat) (code : List Int)
    (hj : ∀ i si,
      cycles clock i 0 { load_bytecode code VM.fresh with is_running := true } = some si →
      takes_jump si = false)
    (hub : ∀ i si,
      cycles clock i 0 { load_bytecode code VM.fresh with is_running := true } = some si →
      si.is_running = true → si.integrity_failed = false → 0 ≤ si.instruction_pointer →
      si.instruction_pointer < si.bytecode.length →
      fetch_execute (clock i) si ≠ none) :
    (∀ (d : Nat) (s s1 : VM) (w : Int),
      read s.bytecode s.instruction_pointer = some w → 0 ≤ w → w ≤ 14 →
      fetch_execute d s = some s1 → takes_jump s = false →
      s1.instruction_pointer = s.instruction_pointer + 1 + operand_count w) ∧
    (∀ (d : Nat) (s s1 : VM), fetch_execute d s = some s1 → takes_jump s = false →
      s.instruction_pointer < s1.instruction_pointer) ∧
    (∀ k sk,
      cycles clock k 0 { load_bytecode code VM.fresh with is_running := true } = some sk →
      k ≤ code.length) ∧
    (∃ st, run clock (code.length + 1) (load_bytecode code VM.fresh)
      = RunResult.returned st) := by
  refine ⟨fun d s s1 w hop h0 h14 hs hnj => fetch_execute_operand_count d s s1 w hop h0 h14 hs hnj,
    ?_, ?_, ?_⟩
  · intro d s s1 hs hnj
    have := (fetch_execute_advance d s s1 hs hnj).1
    omega
  · intro k sk hk
    rcases cycles_bound clock k 0 _ sk hj hk with h | h
    · omega
    · have h2 : (0 : Int) + k ≤ code.length := h
      omega
  · apply run_loop_halts clock (code.length + 1) 0 _ hj
    · intro i si hsi a b c e
      have := hub i si hsi a b c e
      simpa using this
    · show ((code.length : Int) - 0).toNat < code.length + 1
      omega

/-- C20, at the program `[push, 0, jump_if_equal, 9, ret]`, whose jump is not taken. -/
theorem run_without_jump_halts_witness :
    (∀ (d : Nat) (s s1 : VM) (w : Int),
      read s.bytecode s.instruction_pointer = some w → 0 ≤ w → w ≤ 14 →
      fetch_execute d s = some s1 → takes_jump s = false →
      s1.instruction_pointer = s.instruction_pointer + 1 + operand_count w) ∧
    (∀ (d : Nat) (s s1 : VM), fetch_execute d s = some s1 → takes_jump s = false →
      s.instruction_pointer < s1.instruction_pointer) ∧
    (∀ k sk,
      cycles (fun _ => 0) k 0
          { load_bytecode [VM_PUSH, 0, VM_JUMP_IF_EQUAL, 9, VM_RET] VM.fresh with
              is_running := true } = some sk →
      k ≤ [VM_PUSH, 0, VM_JUMP_IF_EQUAL, 9, VM_RET].length) ∧
    (∃ st, run (fun _ => 0) ([VM_PUSH, 0, VM_JUMP_IF_EQUAL, 9, VM_RET].length + 1)
        (load_bytecode [VM_PUSH, 0, VM_JUMP_IF_EQUAL, 9, VM_RET] VM.fresh)
      = RunResult.returned st) :=
  run_without_jump_halts (fun _ => 0) [VM_PUSH, 0, VM_JUMP_IF_EQUAL, 9, VM_RET]
    (by
      intro i si h
      rcases i with _ | _ | _ | _ | i <;>
        simp [cycles, fetch_execute, read, load_bytecode, VM.fresh, lookup_push,
          lookup_jump_if_equal, lookup_ret, handle_push, handle_jump_if_equal, handle_ret] at h <;>
        subst h <;> rfl)
    (by
      intro i si h hr _ _ _
      rcases i with _ | _ | _ | _ | i <;>
        simp [cycles, fetch_execute, read, load_bytecode, VM.fresh, lookup_push,
          lookup_jump_if_equal, lookup_ret, handle_push, handle_jump_if_equal, handle_ret] at h <;>
        subst h <;>
        first
          | exact absurd hr (by decide)
          | simp [fetch_execute, read, lookup_push, lookup_jump_if_equal, lookup_ret, handle_push,
              handle_jump_if_equal, handle_ret])

end CodeVirtualizer
